import Mathlib

/-!
Verification development for `src/telegram/message.py` (python-telegram-bot,
2016 era): a shallow embedding of the `Message` value object, its wire
(de)serialization (`de_json` / `to_dict`), the UTF-16 entity text extraction
(`parse_entity` / `parse_entities`) and the reply/forward client shortcuts.

Modelling conventions:
- Python runtime errors (KeyError, TypeError, ValueError, AttributeError,
  UnicodeDecodeError) are an explicit `PyErr` error type; fallible code
  returns `Except PyErr _`.
- `datetime` values are identified with their whole-second epoch timestamp
  (an `Int`): `datetime.fromtimestamp` and `datetime.timestamp` are inverse
  on whole seconds, which is the only precision reachable from wire data.
- Wire mappings (JSON-decoded dicts) are association lists of `String` keys
  to a `RVal` value type, which also covers the runtime values the source
  stores into those dicts.
- Python truthiness (`if not data:` and friends) is the `pyTruthy` function.
-/

set_option maxHeartbeats 1000000
set_option maxRecDepth 2000

namespace Telegram

/-- A Python runtime error, as raised by the modelled code. -/
inductive PyErr where
  | keyError (k : String)
  | typeError
  | valueError
  | attributeError
  | unicodeDecodeError
deriving DecidableEq, Repr

/-- The opaque result value returned by a client send operation. -/
structure BotResult where
  out : String
deriving DecidableEq, Repr

/-- Modelled from the spec: the injected client (`telegram.Bot`) is not under
`src/`; per the collaborator contract it exposes the eleven send operations
used by the shortcuts.  Each operation takes the destination chat id first;
the payload of the ten send operations is collapsed to one opaque `String`
argument (the source forwards `*args` unchanged).  `forwardMessage` takes
`chat_id`, `from_chat_id`, `disable_notification` and `message_id`, in the
keyword order used at the call site in `Message.forward`. -/
structure Bot where
  sendMessage : Int → String → BotResult
  sendPhoto : Int → String → BotResult
  sendAudio : Int → String → BotResult
  sendDocument : Int → String → BotResult
  sendSticker : Int → String → BotResult
  sendVideo : Int → String → BotResult
  sendVoice : Int → String → BotResult
  sendLocation : Int → String → BotResult
  sendVenue : Int → String → BotResult
  sendContact : Int → String → BotResult
  forwardMessage : Int → Int → Bool → Int → BotResult

/-- Modelled from the spec: `telegram.User` is not under `src/`; the wire
schema says `from` is a User object, modelled by its `id` field. -/
structure User where
  id : Int
deriving DecidableEq, Repr

/-- Modelled from the spec: `telegram.Chat` is not under `src/`; `Message`
only reads its `id` attribute (for `chat_id`). -/
structure Chat where
  id : Int
deriving DecidableEq, Repr

/-- Modelled from the spec: `telegram.Audio` is not under `src/`; an opaque
media payload identified by its file id. -/
structure Audio where
  file_id : String
deriving DecidableEq, Repr

/-- Modelled from the spec: `telegram.Document` is not under `src/`. -/
structure Document where
  file_id : String
deriving DecidableEq, Repr

/-- Modelled from the spec: `telegram.PhotoSize` is not under `src/`. -/
structure PhotoSize where
  file_id : String
deriving DecidableEq, Repr

/-- Modelled from the spec: `telegram.Sticker` is not under `src/`. -/
structure Sticker where
  file_id : String
deriving DecidableEq, Repr

/-- Modelled from the spec: `telegram.Video` is not under `src/`. -/
structure Video where
  file_id : String
deriving DecidableEq, Repr

/-- Modelled from the spec: `telegram.Voice` is not under `src/`. -/
structure Voice where
  file_id : String
deriving DecidableEq, Repr

/-- Modelled from the spec: `telegram.Contact` is not under `src/`. -/
structure Contact where
  phone_number : String
deriving DecidableEq, Repr

/-- Modelled from the spec: `telegram.Location` is not under `src/`; the
coordinate is modelled as an integer (the claims never inspect it). -/
structure Location where
  longitude : Int
deriving DecidableEq, Repr

/-- Modelled from the spec: `telegram.Venue` is not under `src/`. -/
structure Venue where
  title : String
deriving DecidableEq, Repr

/-- Modelled from the spec: `telegram.MessageEntity` is not under `src/`; per
the spec glossary an entity is a type tag with a UTF-16 code-unit offset and
length.  Offsets and lengths are non-negative (spec section 3 invariants), so
they are `Nat`. -/
structure MessageEntity where
  type : String
  offset : Nat
  length : Nat
deriving DecidableEq, Repr

/-- All the fields of a `Message` except the two self-referential ones
(`reply_to_message`, `pinned_message`), in the assignment order of
`Message.__init__` (src lines 109-145).  Optional object fields default to
`None` (here `none`); `text`, `caption` and `new_chat_title` default to the
empty string; `entities` defaults to the empty list; the chat-lifecycle flags
default to `False`; the migrate ids default to `0`. -/
structure MessageCore where
  message_id : Int
  from_user : Option User
  date : Int
  chat : Option Chat
  forward_from : Option User
  forward_from_chat : Option Chat
  forward_date : Option Int
  edit_date : Option Int
  text : String
  entities : List MessageEntity
  audio : Option Audio
  document : Option Document
  photo : Option (List PhotoSize)
  sticker : Option Sticker
  video : Option Video
  voice : Option Voice
  caption : String
  contact : Option Contact
  location : Option Location
  venue : Option Venue
  new_chat_member : Option User
  left_chat_member : Option User
  new_chat_title : String
  new_chat_photo : Option (List PhotoSize)
  delete_chat_photo : Bool
  group_chat_created : Bool
  supergroup_chat_created : Bool
  migrate_to_chat_id : Int
  migrate_from_chat_id : Int
  channel_chat_created : Bool
  bot : Option Bot

/-- A Telegram message (src class `Message`): its plain fields plus the two
self-referential optional fields. -/
inductive Message where
  | mk (core : MessageCore) (reply_to_message : Option Message)
      (pinned_message : Option Message)

/-- The runtime values that can appear in a wire mapping or be stored into
one by `Message.de_json`: JSON-decoded primitives plus the deserialized
objects the source assigns into its input dict. -/
inductive RVal where
  | vnone
  | vint (n : Int)
  | vstr (s : String)
  | vbool (b : Bool)
  | vlist (xs : List RVal)
  | vobj (fields : List (String × RVal))
  | vuser (u : User)
  | vchat (c : Chat)
  | vdatetime (t : Int)
  | vmsg (m : Message)
  | ventity (e : MessageEntity)
  | vphotosize (p : PhotoSize)
  | vaudio (a : Audio)
  | vdocument (d : Document)
  | vsticker (s : Sticker)
  | vvideo (v : Video)
  | vvoice (v : Voice)
  | vcontact (c : Contact)
  | vlocation (l : Location)
  | vvenue (v : Venue)

/-- A Python dict with string keys, as an association list. -/
abbrev PyDict := List (String × RVal)

/-- Python truthiness of a runtime value: `None`, `0`, the empty string, the
empty list and the empty dict are falsy; objects (including `datetime`) are
always truthy. -/
def pyTruthy : RVal → Bool
  | .vnone => false
  | .vint n => n != 0
  | .vstr s => s != ""
  | .vbool b => b
  | .vlist xs => !xs.isEmpty
  | .vobj fields => !fields.isEmpty
  | _ => true

/-- `d.get(k)`: the value at `k`, or `None` when the key is absent. -/
def pyGetD (d : PyDict) (k : String) : RVal :=
  (d.lookup k).getD .vnone

/-- Key lookup distinguishing an absent key (`none`) from a present `None`
value; `d[k]` raises `KeyError` exactly when this is `none`. -/
def pyLookup (d : PyDict) (k : String) : Option RVal :=
  d.lookup k

/-- `d[k] = v`: replace the value at `k` in place, or append the key. -/
def pyDictSet (d : PyDict) (k : String) (v : RVal) : PyDict :=
  match d with
  | [] => [(k, v)]
  | (k', v') :: rest =>
    if k' == k then (k, v) :: rest else (k', v') :: pyDictSet rest k v

/-- `int(v)`: the Python int coercion used by `__init__` on `message_id` and
the migrate ids; fails with `TypeError` on `None`/objects and `ValueError`
on non-numeric strings. -/
def pyInt : RVal → Except PyErr Int
  | .vint n => .ok n
  | .vbool b => .ok (if b then 1 else 0)
  | .vstr s =>
    match s.toInt? with
    | some n => .ok n
    | none => .error .valueError
  | _ => .error .typeError

/-- `d.get(k, dflt)`: the value at `k`, or the given default when absent. -/
def pyGetDefault (d : PyDict) (k : String) (dflt : RVal) : RVal :=
  (d.lookup k).getD dflt

/-- `datetime.fromtimestamp(v)` on the raw value read from the wire dict:
numbers (including bools, which are ints in Python) give a whole-second
datetime, anything else raises `TypeError`. -/
def pyFromTimestamp : RVal → Except PyErr Int
  | .vint n => .ok n
  | .vbool b => .ok (if b then 1 else 0)
  | _ => .error .typeError

/-- Modelled from the spec: `telegram.User.de_json` is not under `src/`; per
the collaborator contract it returns null on null/empty input and otherwise
deserializes the wire mapping (here: its `id` field). -/
def User.de_json (data : RVal) (_bot : Option Bot) : Except PyErr (Option User) :=
  if !pyTruthy data then .ok none
  else match data with
    | .vobj fields =>
      match pyLookup fields "id" with
      | some (.vint n) => .ok (some ⟨n⟩)
      | _ => .error .typeError
    | _ => .error .typeError

/-- Modelled from the spec: the `telegram.User` wire serializer. -/
def User.to_dict (u : User) : PyDict := [("id", .vint u.id)]

/-- Modelled from the spec: `telegram.Chat.de_json` is not under `src/`. -/
def Chat.de_json (data : RVal) (_bot : Option Bot) : Except PyErr (Option Chat) :=
  if !pyTruthy data then .ok none
  else match data with
    | .vobj fields =>
      match pyLookup fields "id" with
      | some (.vint n) => .ok (some ⟨n⟩)
      | _ => .error .typeError
    | _ => .error .typeError

/-- Modelled from the spec: the `telegram.Chat` wire serializer. -/
def Chat.to_dict (c : Chat) : PyDict := [("id", .vint c.id)]

/-- Modelled from the spec: `telegram.Audio.de_json` is not under `src/`. -/
def Audio.de_json (data : RVal) (_bot : Option Bot) : Except PyErr (Option Audio) :=
  if !pyTruthy data then .ok none
  else match data with
    | .vobj fields =>
      match pyLookup fields "file_id" with
      | some (.vstr s) => .ok (some ⟨s⟩)
      | _ => .error .typeError
    | _ => .error .typeError

/-- Modelled from the spec: the `telegram.Audio` wire serializer. -/
def Audio.to_dict (a : Audio) : PyDict := [("file_id", .vstr a.file_id)]

/-- Modelled from the spec: `telegram.Document.de_json` is not under `src/`. -/
def Document.de_json (data : RVal) (_bot : Option Bot) : Except PyErr (Option Document) :=
  if !pyTruthy data then .ok none
  else match data with
    | .vobj fields =>
      match pyLookup fields "file_id" with
      | some (.vstr s) => .ok (some ⟨s⟩)
      | _ => .error .typeError
    | _ => .error .typeError

/-- Modelled from the spec: the `telegram.Document` wire serializer. -/
def Document.to_dict (d : Document) : PyDict := [("file_id", .vstr d.file_id)]

/-- Modelled from the spec: `telegram.PhotoSize.de_json` is not under `src/`. -/
def PhotoSize.de_json (data : RVal) (_bot : Option Bot) : Except PyErr (Option PhotoSize) :=
  if !pyTruthy data then .ok none
  else match data with
    | .vobj fields =>
      match pyLookup fields "file_id" with
      | some (.vstr s) => .ok (some ⟨s⟩)
      | _ => .error .typeError
    | _ => .error .typeError

/-- Modelled from the spec: the `telegram.PhotoSize` wire serializer. -/
def PhotoSize.to_dict (p : PhotoSize) : PyDict := [("file_id", .vstr p.file_id)]

/-- One array item of a `PhotoSize.de_list` run: deserialize it, treating a
null result (a falsy array element) as `TypeError`. -/
def PhotoSize.from_wire_item (bot : Option Bot) (x : RVal) : Except PyErr PhotoSize := do
  match ← PhotoSize.de_json x bot with
  | some p => pure p
  | none => .error .typeError

/-- Modelled from the spec: `telegram.PhotoSize.de_list` is not under `src/`;
it maps the per-item deserializer over a wire array and returns the empty
list on null/empty input. -/
def PhotoSize.de_list (data : RVal) (bot : Option Bot) : Except PyErr (List PhotoSize) :=
  if !pyTruthy data then .ok []
  else match data with
    | .vlist xs => xs.mapM (PhotoSize.from_wire_item bot)
    | _ => .error .typeError

/-- Modelled from the spec: `telegram.Sticker.de_json` is not under `src/`. -/
def Sticker.de_json (data : RVal) (_bot : Option Bot) : Except PyErr (Option Sticker) :=
  if !pyTruthy data then .ok none
  else match data with
    | .vobj fields =>
      match pyLookup fields "file_id" with
      | some (.vstr s) => .ok (some ⟨s⟩)
      | _ => .error .typeError
    | _ => .error .typeError

/-- Modelled from the spec: the `telegram.Sticker` wire serializer. -/
def Sticker.to_dict (s : Sticker) : PyDict := [("file_id", .vstr s.file_id)]

/-- Modelled from the spec: `telegram.Video.de_json` is not under `src/`. -/
def Video.de_json (data : RVal) (_bot : Option Bot) : Except PyErr (Option Video) :=
  if !pyTruthy data then .ok none
  else match data with
    | .vobj fields =>
      match pyLookup fields "file_id" with
      | some (.vstr s) => .ok (some ⟨s⟩)
      | _ => .error .typeError
    | _ => .error .typeError

/-- Modelled from the spec: the `telegram.Video` wire serializer. -/
def Video.to_dict (v : Video) : PyDict := [("file_id", .vstr v.file_id)]

/-- Modelled from the spec: `telegram.Voice.de_json` is not under `src/`. -/
def Voice.de_json (data : RVal) (_bot : Option Bot) : Except PyErr (Option Voice) :=
  if !pyTruthy data then .ok none
  else match data with
    | .vobj fields =>
      match pyLookup fields "file_id" with
      | some (.vstr s) => .ok (some ⟨s⟩)
      | _ => .error .typeError
    | _ => .error .typeError

/-- Modelled from the spec: the `telegram.Voice` wire serializer. -/
def Voice.to_dict (v : Voice) : PyDict := [("file_id", .vstr v.file_id)]

/-- Modelled from the spec: `telegram.Contact.de_json` is not under `src/`. -/
def Contact.de_json (data : RVal) (_bot : Option Bot) : Except PyErr (Option Contact) :=
  if !pyTruthy data then .ok none
  else match data with
    | .vobj fields =>
      match pyLookup fields "phone_number" with
      | some (.vstr s) => .ok (some ⟨s⟩)
      | _ => .error .typeError
    | _ => .error .typeError

/-- Modelled from the spec: the `telegram.Contact` wire serializer. -/
def Contact.to_dict (c : Contact) : PyDict := [("phone_number", .vstr c.phone_number)]

/-- Modelled from the spec: `telegram.Location.de_json` is not under `src/`. -/
def Location.de_json (data : RVal) (_bot : Option Bot) : Except PyErr (Option Location) :=
  if !pyTruthy data then .ok none
  else match data with
    | .vobj fields =>
      match pyLookup fields "longitude" with
      | some (.vint n) => .ok (some ⟨n⟩)
      | _ => .error .typeError
    | _ => .error .typeError

/-- Modelled from the spec: the `telegram.Location` wire serializer. -/
def Location.to_dict (l : Location) : PyDict := [("longitude", .vint l.longitude)]

/-- Modelled from the spec: `telegram.Venue.de_json` is not under `src/`. -/
def Venue.de_json (data : RVal) (_bot : Option Bot) : Except PyErr (Option Venue) :=
  if !pyTruthy data then .ok none
  else match data with
    | .vobj fields =>
      match pyLookup fields "title" with
      | some (.vstr s) => .ok (some ⟨s⟩)
      | _ => .error .typeError
    | _ => .error .typeError

/-- Modelled from the spec: the `telegram.Venue` wire serializer. -/
def Venue.to_dict (v : Venue) : PyDict := [("title", .vstr v.title)]

/-- Modelled from the spec: `telegram.MessageEntity.de_json` is not under
`src/`; it deserializes the type tag and the UTF-16 offset and length.  A
negative offset or length is rejected (spec section 3: offsets and lengths
are within the bounds of the UTF-16 encoding, hence non-negative). -/
def MessageEntity.de_json (data : RVal) (_bot : Option Bot) :
    Except PyErr (Option MessageEntity) :=
  if !pyTruthy data then .ok none
  else match data with
    | .vobj fields =>
      match pyLookup fields "type", pyLookup fields "offset", pyLookup fields "length" with
      | some (.vstr t), some (.vint o), some (.vint l) =>
        if 0 ≤ o ∧ 0 ≤ l then .ok (some ⟨t, o.toNat, l.toNat⟩)
        else .error .valueError
      | _, _, _ => .error .typeError
    | _ => .error .typeError

/-- Modelled from the spec: the `telegram.MessageEntity` wire serializer. -/
def MessageEntity.to_dict (e : MessageEntity) : PyDict :=
  [("type", .vstr e.type), ("offset", .vint e.offset), ("length", .vint e.length)]

/-- One array item of a `MessageEntity.de_list` run: deserialize it,
treating a null result (a falsy array element) as `TypeError`. -/
def MessageEntity.from_wire_item (bot : Option Bot) (x : RVal) :
    Except PyErr MessageEntity := do
  match ← MessageEntity.de_json x bot with
  | some e => pure e
  | none => .error .typeError

/-- Modelled from the spec: `telegram.MessageEntity.de_list` is not under
`src/`; it maps the per-item deserializer over a wire array and returns the
empty list on null/empty input. -/
def MessageEntity.de_list (data : RVal) (bot : Option Bot) :
    Except PyErr (List MessageEntity) :=
  if !pyTruthy data then .ok []
  else match data with
    | .vlist xs => xs.mapM (MessageEntity.from_wire_item bot)
    | _ => .error .typeError

/-- Modelled from the spec: `MessageEntity.ALL_TYPES`, the list of all
recognized entity-type tags (the default filter of `parse_entities`). -/
def MessageEntity.ALL_TYPES : List String :=
  ["mention", "hashtag", "bot_command", "url", "email",
   "bold", "italic", "code", "pre", "text_link"]

/-- The non-recursive fields of a message. -/
def Message.core : Message → MessageCore
  | .mk c _ _ => c

/-- `self.reply_to_message`. -/
def Message.reply_to_message : Message → Option Message
  | .mk _ r _ => r

/-- `self.pinned_message`. -/
def Message.pinned_message : Message → Option Message
  | .mk _ _ p => p

/-- `self.message_id`. -/
def Message.message_id (m : Message) : Int := m.core.message_id

/-- `self.from_user`. -/
def Message.from_user (m : Message) : Option User := m.core.from_user

/-- `self.date`. -/
def Message.date (m : Message) : Int := m.core.date

/-- `self.chat`. -/
def Message.chat (m : Message) : Option Chat := m.core.chat

/-- `self.forward_from`. -/
def Message.forward_from (m : Message) : Option User := m.core.forward_from

/-- `self.forward_from_chat`. -/
def Message.forward_from_chat (m : Message) : Option Chat := m.core.forward_from_chat

/-- `self.forward_date`. -/
def Message.forward_date (m : Message) : Option Int := m.core.forward_date

/-- `self.edit_date`. -/
def Message.edit_date (m : Message) : Option Int := m.core.edit_date

/-- `self.text`. -/
def Message.text (m : Message) : String := m.core.text

/-- `self.entities`. -/
def Message.entities (m : Message) : List MessageEntity := m.core.entities

/-- `self.audio`. -/
def Message.audio (m : Message) : Option Audio := m.core.audio

/-- `self.document`. -/
def Message.document (m : Message) : Option Document := m.core.document

/-- `self.photo`. -/
def Message.photo (m : Message) : Option (List PhotoSize) := m.core.photo

/-- `self.sticker`. -/
def Message.sticker (m : Message) : Option Sticker := m.core.sticker

/-- `self.video`. -/
def Message.video (m : Message) : Option Video := m.core.video

/-- `self.voice`. -/
def Message.voice (m : Message) : Option Voice := m.core.voice

/-- `self.caption`. -/
def Message.caption (m : Message) : String := m.core.caption

/-- `self.contact`. -/
def Message.contact (m : Message) : Option Contact := m.core.contact

/-- `self.location`. -/
def Message.location (m : Message) : Option Location := m.core.location

/-- `self.venue`. -/
def Message.venue (m : Message) : Option Venue := m.core.venue

/-- `self.new_chat_member`. -/
def Message.new_chat_member (m : Message) : Option User := m.core.new_chat_member

/-- `self.left_chat_member`. -/
def Message.left_chat_member (m : Message) : Option User := m.core.left_chat_member

/-- `self.new_chat_title`. -/
def Message.new_chat_title (m : Message) : String := m.core.new_chat_title

/-- `self.new_chat_photo`. -/
def Message.new_chat_photo (m : Message) : Option (List PhotoSize) := m.core.new_chat_photo

/-- `self.delete_chat_photo`. -/
def Message.delete_chat_photo (m : Message) : Bool := m.core.delete_chat_photo

/-- `self.group_chat_created`. -/
def Message.group_chat_created (m : Message) : Bool := m.core.group_chat_created

/-- `self.supergroup_chat_created`. -/
def Message.supergroup_chat_created (m : Message) : Bool := m.core.supergroup_chat_created

/-- `self.migrate_to_chat_id`. -/
def Message.migrate_to_chat_id (m : Message) : Int := m.core.migrate_to_chat_id

/-- `self.migrate_from_chat_id`. -/
def Message.migrate_from_chat_id (m : Message) : Int := m.core.migrate_from_chat_id

/-- `self.channel_chat_created`. -/
def Message.channel_chat_created (m : Message) : Bool := m.core.channel_chat_created

/-- `self.bot`. -/
def Message.bot (m : Message) : Option Bot := m.core.bot

/-- `Message.chat_id` (src lines 147-150): short for `self.chat.id`; raises
`AttributeError` when `chat` is `None`. -/
def Message.chat_id (m : Message) : Except PyErr Int :=
  match m.chat with
  | some c => .ok c.id
  | none => .error .attributeError

/-- `Message._fromtimestamp` (src lines 220-232): `None` for falsy input,
otherwise the datetime of the epoch-second value. -/
def Message._fromtimestamp (unixtime : RVal) : Except PyErr (Option Int) :=
  if !pyTruthy unixtime then .ok none
  else match unixtime with
    | .vint n => .ok (some n)
    | .vbool _ => .ok (some 1)
    | _ => .error .typeError

/-- `Message._totimestamp` (src lines 234-251): `None` for `None` input,
otherwise the whole-second epoch timestamp of the datetime. -/
def Message._totimestamp : Option Int → RVal
  | none => .vnone
  | some t => .vint t

/-- Coercion of a stored value to the `str` wire type of `text`, `caption`
and `new_chat_title`.  The source stores the raw value unchecked; the model
fixes the wire type (spec section 6) and rejects ill-typed values, which are
unreachable from well-typed wire data. -/
def asStr : RVal → Except PyErr String
  | .vstr s => .ok s
  | _ => .error .typeError

/-- Coercion of a stored value to a list of entity objects (the value
`de_json` assigns under the `entities` key, or the `list()` default). -/
def asEntityList : RVal → Except PyErr (List MessageEntity)
  | .vlist xs => xs.mapM (fun x =>
      match x with
      | .ventity e => .ok e
      | _ => .error .typeError)
  | _ => .error .typeError

/-- Coercion of a stored value to an optional `User` (a `User.de_json`
result: either `None` or a `User` object). -/
def asOptUser : RVal → Except PyErr (Option User)
  | .vnone => .ok none
  | .vuser u => .ok (some u)
  | _ => .error .typeError

/-- Coercion of a stored value to an optional `Chat`. -/
def asOptChat : RVal → Except PyErr (Option Chat)
  | .vnone => .ok none
  | .vchat c => .ok (some c)
  | _ => .error .typeError

/-- Coercion of a stored value to an optional datetime (a `_fromtimestamp`
result: either `None` or a whole-second datetime). -/
def asOptDatetime : RVal → Except PyErr (Option Int)
  | .vnone => .ok none
  | .vdatetime t => .ok (some t)
  | _ => .error .typeError

/-- Coercion of a stored value to an optional nested `Message` (a
`Message.de_json` result). -/
def asOptMsg : RVal → Except PyErr (Option Message)
  | .vnone => .ok none
  | .vmsg m => .ok (some m)
  | _ => .error .typeError

/-- Coercion of a stored value to an optional photo list: `None` when the
key was absent or explicitly `None`, the list of `PhotoSize` objects when
`de_json` stored a `de_list` result. -/
def asOptPhotoList : RVal → Except PyErr (Option (List PhotoSize))
  | .vnone => .ok none
  | .vlist xs => do
    let ps ← xs.mapM (fun (x : RVal) =>
      (match x with
      | .vphotosize p => .ok p
      | _ => .error .typeError : Except PyErr PhotoSize))
    .ok (some ps)
  | _ => .error .typeError

/-- Coercion of a stored value to an optional `Audio`. -/
def asOptAudio : RVal → Except PyErr (Option Audio)
  | .vnone => .ok none
  | .vaudio a => .ok (some a)
  | _ => .error .typeError

/-- Coercion of a stored value to an optional `Document`. -/
def asOptDocument : RVal → Except PyErr (Option Document)
  | .vnone => .ok none
  | .vdocument d => .ok (some d)
  | _ => .error .typeError

/-- Coercion of a stored value to an optional `Sticker`. -/
def asOptSticker : RVal → Except PyErr (Option Sticker)
  | .vnone => .ok none
  | .vsticker s => .ok (some s)
  | _ => .error .typeError

/-- Coercion of a stored value to an optional `Video`. -/
def asOptVideo : RVal → Except PyErr (Option Video)
  | .vnone => .ok none
  | .vvideo v => .ok (some v)
  | _ => .error .typeError

/-- Coercion of a stored value to an optional `Voice`. -/
def asOptVoice : RVal → Except PyErr (Option Voice)
  | .vnone => .ok none
  | .vvoice v => .ok (some v)
  | _ => .error .typeError

/-- Coercion of a stored value to an optional `Contact`. -/
def asOptContact : RVal → Except PyErr (Option Contact)
  | .vnone => .ok none
  | .vcontact c => .ok (some c)
  | _ => .error .typeError

/-- Coercion of a stored value to an optional `Location`. -/
def asOptLocation : RVal → Except PyErr (Option Location)
  | .vnone => .ok none
  | .vlocation l => .ok (some l)
  | _ => .error .typeError

/-- Coercion of a stored value to an optional `Venue`. -/
def asOptVenue : RVal → Except PyErr (Option Venue)
  | .vnone => .ok none
  | .vvenue v => .ok (some v)
  | _ => .error .typeError

/-- `Message.__init__` (src lines 109-145): the four required arguments, the
`bot` keyword and the `**kwargs` dict of optional fields.  Each line mirrors
one assignment: `int(message_id)`; `kwargs.get(k)` for optional objects;
`kwargs.get(k, dflt)` with the documented defaults for `text`, `entities`,
`caption`, `new_chat_title`, the lifecycle flags and the migrate ids. -/
def Message.init (message_id : RVal) (from_user : Option User) (date : Int)
    (chat : Option Chat) (bot : Option Bot) (kwargs : PyDict) :
    Except PyErr Message := do
  let mid ← pyInt message_id
  let forward_from ← asOptUser (pyGetD kwargs "forward_from")
  let forward_from_chat ← asOptChat (pyGetD kwargs "forward_from_chat")
  let forward_date ← asOptDatetime (pyGetD kwargs "forward_date")
  let reply_to_message ← asOptMsg (pyGetD kwargs "reply_to_message")
  let edit_date ← asOptDatetime (pyGetD kwargs "edit_date")
  let text ← asStr (pyGetDefault kwargs "text" (.vstr ""))
  let entities ← asEntityList (pyGetDefault kwargs "entities" (.vlist []))
  let audio ← asOptAudio (pyGetD kwargs "audio")
  let document ← asOptDocument (pyGetD kwargs "document")
  let photo ← asOptPhotoList (pyGetD kwargs "photo")
  let sticker ← asOptSticker (pyGetD kwargs "sticker")
  let video ← asOptVideo (pyGetD kwargs "video")
  let voice ← asOptVoice (pyGetD kwargs "voice")
  let caption ← asStr (pyGetDefault kwargs "caption" (.vstr ""))
  let contact ← asOptContact (pyGetD kwargs "contact")
  let location ← asOptLocation (pyGetD kwargs "location")
  let venue ← asOptVenue (pyGetD kwargs "venue")
  let new_chat_member ← asOptUser (pyGetD kwargs "new_chat_member")
  let left_chat_member ← asOptUser (pyGetD kwargs "left_chat_member")
  let new_chat_title ← asStr (pyGetDefault kwargs "new_chat_title" (.vstr ""))
  let new_chat_photo ← asOptPhotoList (pyGetD kwargs "new_chat_photo")
  let migrate_to_chat_id ← pyInt (pyGetDefault kwargs "migrate_to_chat_id" (.vint 0))
  let migrate_from_chat_id ← pyInt (pyGetDefault kwargs "migrate_from_chat_id" (.vint 0))
  let pinned_message ← asOptMsg (pyGetD kwargs "pinned_message")
  .ok (Message.mk
    { message_id := mid
      from_user := from_user
      date := date
      chat := chat
      forward_from := forward_from
      forward_from_chat := forward_from_chat
      forward_date := forward_date
      edit_date := edit_date
      text := text
      entities := entities
      audio := audio
      document := document
      photo := photo
      sticker := sticker
      video := video
      voice := voice
      caption := caption
      contact := contact
      location := location
      venue := venue
      new_chat_member := new_chat_member
      left_chat_member := left_chat_member
      new_chat_title := new_chat_title
      new_chat_photo := new_chat_photo
      delete_chat_photo := pyTruthy (pyGetDefault kwargs "delete_chat_photo" (.vbool false))
      group_chat_created := pyTruthy (pyGetDefault kwargs "group_chat_created" (.vbool false))
      supergroup_chat_created := pyTruthy (pyGetDefault kwargs "supergroup_chat_created" (.vbool false))
      migrate_to_chat_id := migrate_to_chat_id
      migrate_from_chat_id := migrate_from_chat_id
      channel_chat_created := pyTruthy (pyGetDefault kwargs "channel_chat_created" (.vbool false))
      bot := bot }
    reply_to_message pinned_message)

/-- `Message.de_json` (src lines 152-188).  `if not data: return None`; then
each line deserializes one key of the wire dict.  Every key the source reads
is distinct from every key a previous line assigned, so each read sees the
original dict; the mutated dict (the source mutates its input in place) is
modelled separately by `Message.de_json_data`.  The final
`Message(bot=bot, **data)` call is inlined: `message_id` missing from the
dict is the missing-required-argument `TypeError`, a `bot` key in the dict
collides with the explicit `bot` keyword, and the optional scalar fields are
read from the dict exactly as `__init__` reads its `kwargs`. -/
def Message.de_json (data : RVal) (bot : Option Bot) : Except PyErr (Option Message) :=
  if !pyTruthy data then .ok none
  else match data with
    | .vobj fields => do
      let from_user ← User.de_json (pyGetD fields "from") bot
      let date ← (match pyLookup fields "date" with
        | none => .error (.keyError "date")
        | some v => pyFromTimestamp v)
      let chat ← Chat.de_json (pyGetD fields "chat") bot
      let entities ← MessageEntity.de_list (pyGetD fields "entities") bot
      let forward_from ← User.de_json (pyGetD fields "forward_from") bot
      let forward_from_chat ← Chat.de_json (pyGetD fields "forward_from_chat") bot
      let forward_date ← Message._fromtimestamp (pyGetD fields "forward_date")
      let reply_to_message ← Message.de_json (pyGetD fields "reply_to_message") bot
      let edit_date ← Message._fromtimestamp (pyGetD fields "edit_date")
      let audio ← Audio.de_json (pyGetD fields "audio") bot
      let document ← Document.de_json (pyGetD fields "document") bot
      let photo ← PhotoSize.de_list (pyGetD fields "photo") bot
      let sticker ← Sticker.de_json (pyGetD fields "sticker") bot
      let video ← Video.de_json (pyGetD fields "video") bot
      let voice ← Voice.de_json (pyGetD fields "voice") bot
      let contact ← Contact.de_json (pyGetD fields "contact") bot
      let location ← Location.de_json (pyGetD fields "location") bot
      let venue ← Venue.de_json (pyGetD fields "venue") bot
      let new_chat_member ← User.de_json (pyGetD fields "new_chat_member") bot
      let left_chat_member ← User.de_json (pyGetD fields "left_chat_member") bot
      let new_chat_photo ← PhotoSize.de_list (pyGetD fields "new_chat_photo") bot
      let pinned_message ← Message.de_json (pyGetD fields "pinned_message") bot
      if (pyLookup fields "bot").isSome then .error .typeError
      else do
      let message_id ← (match pyLookup fields "message_id" with
        | none => .error .typeError
        | some v => pure v)
      let mid ← pyInt message_id
      let text ← asStr (pyGetDefault fields "text" (.vstr ""))
      let caption ← asStr (pyGetDefault fields "caption" (.vstr ""))
      let new_chat_title ← asStr (pyGetDefault fields "new_chat_title" (.vstr ""))
      let migrate_to_chat_id ← pyInt (pyGetDefault fields "migrate_to_chat_id" (.vint 0))
      let migrate_from_chat_id ← pyInt (pyGetDefault fields "migrate_from_chat_id" (.vint 0))
      .ok (some (Message.mk
        { message_id := mid
          from_user := from_user
          date := date
          chat := chat
          forward_from := forward_from
          forward_from_chat := forward_from_chat
          forward_date := forward_date
          edit_date := edit_date
          text := text
          entities := entities
          audio := audio
          document := document
          photo := some photo
          sticker := sticker
          video := video
          voice := voice
          caption := caption
          contact := contact
          location := location
          venue := venue
          new_chat_member := new_chat_member
          left_chat_member := left_chat_member
          new_chat_title := new_chat_title
          new_chat_photo := some new_chat_photo
          delete_chat_photo := pyTruthy (pyGetDefault fields "delete_chat_photo" (.vbool false))
          group_chat_created := pyTruthy (pyGetDefault fields "group_chat_created" (.vbool false))
          supergroup_chat_created := pyTruthy (pyGetDefault fields "supergroup_chat_created" (.vbool false))
          migrate_to_chat_id := migrate_to_chat_id
          migrate_from_chat_id := migrate_from_chat_id
          channel_chat_created := pyTruthy (pyGetDefault fields "channel_chat_created" (.vbool false))
          bot := bot }
        reply_to_message pinned_message))
    | _ => .error .attributeError
termination_by sizeOf data
decreasing_by
  all_goals
  have hlook : ∀ (l : List (String × RVal)) (k : String) (v : RVal),
      l.lookup k = some v → sizeOf v < sizeOf l := by
    intro l
    induction l with
    | nil => intro k v h; simp [List.lookup] at h
    | cons p rest ih =>
      intro k v h
      obtain ⟨a, b⟩ := p
      rw [List.lookup] at h
      split at h
      · cases h
        simp only [List.cons.sizeOf_spec, Prod.mk.sizeOf_spec]
        omega
      · have := ih k v h
        simp only [List.cons.sizeOf_spec, Prod.mk.sizeOf_spec]
        omega
  all_goals
  have hget : ∀ (l : List (String × RVal)) (k : String),
      sizeOf ((List.lookup k l).getD RVal.vnone) < 1 + sizeOf l := by
    intro l k
    cases hL : List.lookup k l with
    | none =>
      have hpos : 1 ≤ sizeOf l := by
        cases l with
        | nil => simp
        | cons x xs => simp only [List.cons.sizeOf_spec]; omega
      simpa [Option.getD] using by omega
    | some v =>
      have := hlook l k v hL
      simpa [Option.getD] using by omega
  all_goals
    simp only [pyGetD, RVal.vobj.sizeOf_spec]
    exact hget _ _

/-- One optional dict entry: `data[k] = v` guarded by the omission test. -/
def emitIf (b : Bool) (k : String) (v : RVal) : PyDict :=
  if b then [(k, v)] else []

/-- The wire form of an optional nested object: `None` or its wire mapping. -/
def wireOpt {α : Type} (f : α → PyDict) : Option α → RVal
  | none => .vnone
  | some x => .vobj (f x)

/-- Truthiness of an optional list-valued attribute (`if self.photo:`):
true exactly for a present, non-empty list. -/
def optListTruthy {α : Type} : Option (List α) → Bool
  | some (_ :: _) => true
  | _ => false

/-- `Message.to_dict` (src lines 196-218).  Modelled from the spec for the
inherited part: `TelegramObject.to_dict` (the `super()` call) is not under
`src/`; per spec section 4.2 it emits each attribute in `__dict__` order as
its wire mapping and omits attributes whose value is null or empty (`None`,
the empty string, an empty list) — integers and booleans are never null or
empty, so they are always emitted.  On top of that base mapping the source
lines under `src/` do: pop `from_user` and store it under the reserved key
`from` (always assigned, possibly `None`, and appended last); overwrite
`date` (and `forward_date` / `edit_date` when present) with whole-second
epoch timestamps via `_totimestamp`; expand `photo`, `entities` and
`new_chat_photo` into arrays of wire mappings when truthy.  The `bot`
attribute has no wire representation. -/
def Message.to_dict : Message → PyDict
  | .mk core reply pinned =>
    [("message_id", .vint core.message_id)]
    ++ [("date", Message._totimestamp (some core.date))]
    ++ emitIf core.chat.isSome "chat" (wireOpt Chat.to_dict core.chat)
    ++ emitIf core.forward_from.isSome "forward_from"
        (wireOpt User.to_dict core.forward_from)
    ++ emitIf core.forward_from_chat.isSome "forward_from_chat"
        (wireOpt Chat.to_dict core.forward_from_chat)
    ++ emitIf core.forward_date.isSome "forward_date"
        (Message._totimestamp core.forward_date)
    ++ (match reply with
        | none => []
        | some r => [("reply_to_message", .vobj (Message.to_dict r))])
    ++ emitIf core.edit_date.isSome "edit_date"
        (Message._totimestamp core.edit_date)
    ++ emitIf (core.text != "") "text" (.vstr core.text)
    ++ emitIf (!core.entities.isEmpty) "entities"
        (.vlist (core.entities.map (fun e => .vobj (MessageEntity.to_dict e))))
    ++ emitIf core.audio.isSome "audio" (wireOpt Audio.to_dict core.audio)
    ++ emitIf core.document.isSome "document" (wireOpt Document.to_dict core.document)
    ++ emitIf (optListTruthy core.photo) "photo"
        (.vlist ((core.photo.getD []).map (fun p => .vobj (PhotoSize.to_dict p))))
    ++ emitIf core.sticker.isSome "sticker" (wireOpt Sticker.to_dict core.sticker)
    ++ emitIf core.video.isSome "video" (wireOpt Video.to_dict core.video)
    ++ emitIf core.voice.isSome "voice" (wireOpt Voice.to_dict core.voice)
    ++ emitIf (core.caption != "") "caption" (.vstr core.caption)
    ++ emitIf core.contact.isSome "contact" (wireOpt Contact.to_dict core.contact)
    ++ emitIf core.location.isSome "location" (wireOpt Location.to_dict core.location)
    ++ emitIf core.venue.isSome "venue" (wireOpt Venue.to_dict core.venue)
    ++ emitIf core.new_chat_member.isSome "new_chat_member"
        (wireOpt User.to_dict core.new_chat_member)
    ++ emitIf core.left_chat_member.isSome "left_chat_member"
        (wireOpt User.to_dict core.left_chat_member)
    ++ emitIf (core.new_chat_title != "") "new_chat_title" (.vstr core.new_chat_title)
    ++ emitIf (optListTruthy core.new_chat_photo) "new_chat_photo"
        (.vlist ((core.new_chat_photo.getD []).map (fun p => .vobj (PhotoSize.to_dict p))))
    ++ [("delete_chat_photo", .vbool core.delete_chat_photo)]
    ++ [("group_chat_created", .vbool core.group_chat_created)]
    ++ [("supergroup_chat_created", .vbool core.supergroup_chat_created)]
    ++ [("migrate_to_chat_id", .vint core.migrate_to_chat_id)]
    ++ [("migrate_from_chat_id", .vint core.migrate_from_chat_id)]
    ++ [("channel_chat_created", .vbool core.channel_chat_created)]
    ++ (match pinned with
        | none => []
        | some p => [("pinned_message", .vobj (Message.to_dict p))])
    ++ [("from", wireOpt User.to_dict core.from_user)]

/-- An optional object as a stored runtime value: `None` or the object. -/
def optRVal {α : Type} (f : α → RVal) : Option α → RVal
  | none => .vnone
  | some x => f x

/-- The in-place mutation `Message.de_json` performs on its input dict (src
lines 165-186): each line assigns the deserialized value of one key.  Every
key a line reads is distinct from every key assigned by a previous line, so
all reads see the original dict; the assignments are applied in source
order.  On an error the source leaves the dict partially mutated; the model
returns the mutated dict only for the successful runs the claims evaluate. -/
def Message.de_json_data (data : PyDict) (bot : Option Bot) : Except PyErr PyDict := do
  let from_user ← User.de_json (pyGetD data "from") bot
  let date ← (match pyLookup data "date" with
    | none => .error (.keyError "date")
    | some v => pyFromTimestamp v)
  let chat ← Chat.de_json (pyGetD data "chat") bot
  let entities ← MessageEntity.de_list (pyGetD data "entities") bot
  let forward_from ← User.de_json (pyGetD data "forward_from") bot
  let forward_from_chat ← Chat.de_json (pyGetD data "forward_from_chat") bot
  let forward_date ← Message._fromtimestamp (pyGetD data "forward_date")
  let reply_to_message ← Message.de_json (pyGetD data "reply_to_message") bot
  let edit_date ← Message._fromtimestamp (pyGetD data "edit_date")
  let audio ← Audio.de_json (pyGetD data "audio") bot
  let document ← Document.de_json (pyGetD data "document") bot
  let photo ← PhotoSize.de_list (pyGetD data "photo") bot
  let sticker ← Sticker.de_json (pyGetD data "sticker") bot
  let video ← Video.de_json (pyGetD data "video") bot
  let voice ← Voice.de_json (pyGetD data "voice") bot
  let contact ← Contact.de_json (pyGetD data "contact") bot
  let location ← Location.de_json (pyGetD data "location") bot
  let venue ← Venue.de_json (pyGetD data "venue") bot
  let new_chat_member ← User.de_json (pyGetD data "new_chat_member") bot
  let left_chat_member ← User.de_json (pyGetD data "left_chat_member") bot
  let new_chat_photo ← PhotoSize.de_list (pyGetD data "new_chat_photo") bot
  let pinned_message ← Message.de_json (pyGetD data "pinned_message") bot
  let d := pyDictSet data "from_user" (optRVal RVal.vuser from_user)
  let d := pyDictSet d "date" (.vdatetime date)
  let d := pyDictSet d "chat" (optRVal RVal.vchat chat)
  let d := pyDictSet d "entities" (.vlist (entities.map RVal.ventity))
  let d := pyDictSet d "forward_from" (optRVal RVal.vuser forward_from)
  let d := pyDictSet d "forward_from_chat" (optRVal RVal.vchat forward_from_chat)
  let d := pyDictSet d "forward_date" (optRVal RVal.vdatetime forward_date)
  let d := pyDictSet d "reply_to_message" (optRVal RVal.vmsg reply_to_message)
  let d := pyDictSet d "edit_date" (optRVal RVal.vdatetime edit_date)
  let d := pyDictSet d "audio" (optRVal RVal.vaudio audio)
  let d := pyDictSet d "document" (optRVal RVal.vdocument document)
  let d := pyDictSet d "photo" (.vlist (photo.map RVal.vphotosize))
  let d := pyDictSet d "sticker" (optRVal RVal.vsticker sticker)
  let d := pyDictSet d "video" (optRVal RVal.vvideo video)
  let d := pyDictSet d "voice" (optRVal RVal.vvoice voice)
  let d := pyDictSet d "contact" (optRVal RVal.vcontact contact)
  let d := pyDictSet d "location" (optRVal RVal.vlocation location)
  let d := pyDictSet d "venue" (optRVal RVal.vvenue venue)
  let d := pyDictSet d "new_chat_member" (optRVal RVal.vuser new_chat_member)
  let d := pyDictSet d "left_chat_member" (optRVal RVal.vuser left_chat_member)
  let d := pyDictSet d "new_chat_photo" (.vlist (new_chat_photo.map RVal.vphotosize))
  let d := pyDictSet d "pinned_message" (optRVal RVal.vmsg pinned_message)
  .ok d

/-- The 22 keys `Message.de_json` assigns into its input dict. -/
def Message.de_json_assigned_keys : List String :=
  ["from_user", "date", "chat", "entities", "forward_from", "forward_from_chat",
   "forward_date", "reply_to_message", "edit_date", "audio", "document", "photo",
   "sticker", "video", "voice", "contact", "location", "venue",
   "new_chat_member", "left_chat_member", "new_chat_photo", "pinned_message"]

/-- The UTF-16 code units of one character: one unit below `0x10000`, a
surrogate pair above. -/
def charUtf16Units (c : Char) : List Nat :=
  let v := c.val.toNat
  if v < 0x10000 then [v]
  else [0xD800 + (v - 0x10000) / 0x400, 0xDC00 + (v - 0x10000) % 0x400]

/-- The UTF-16 code units of a string. -/
def utf16Units (s : String) : List Nat :=
  s.data.flatMap charUtf16Units

/-- The two little-endian bytes of one UTF-16 code unit. -/
def unitLeBytes (u : Nat) : List Nat :=
  [u % 256, u / 256 % 256]

/-- `text.encode(utf-16-le)` (src line 328): the little-endian byte string
of the UTF-16 encoding. -/
def utf16leBytes (s : String) : List Nat :=
  (utf16Units s).flatMap unitLeBytes

/-- Recombine little-endian byte pairs into UTF-16 code units; an odd byte
count is a truncated-data decode error. -/
def bytesToUnits : List Nat → Option (List Nat)
  | [] => some []
  | [_] => none
  | b0 :: b1 :: rest => (bytesToUnits rest).map (fun us => (b0 + 256 * b1) :: us)

/-- Strict UTF-16 decoding of a code-unit sequence, as Python's
`bytes.decode(utf-16-le)`: a basic-plane unit is a character, a high
surrogate must be followed by a low surrogate (combining into a
supplementary character), and any lone surrogate is a decode error. -/
def decodeUnits : List Nat → Option (List Char)
  | [] => some []
  | u :: rest =>
    if u < 0xD800 ∨ 0xE000 ≤ u then
      (decodeUnits rest).map (fun cs => Char.ofNat u :: cs)
    else if u < 0xDC00 then
      match rest with
      | lo :: rest2 =>
        if 0xDC00 ≤ lo ∧ lo < 0xE000 then
          (decodeUnits rest2).map (fun cs =>
            Char.ofNat (0x10000 + (u - 0xD800) * 0x400 + (lo - 0xDC00)) :: cs)
        else none
      | [] => none
    else none

/-- `bytes.decode(utf-16-le)` with strict errors: `none` is a
`UnicodeDecodeError`. -/
def decodeUtf16le (bs : List Nat) : Option String :=
  (bytesToUnits bs).bind (fun us => (decodeUnits us).map (fun cs => ⟨cs⟩))

/-- Python byte-string slicing `l[a:b]` for `0 ≤ a ≤ b`: clamped to the
available length. -/
def pySlice {α : Type} (l : List α) (a b : Nat) : List α :=
  (l.drop a).take (b - a)

/-- `Message.parse_entity` (src lines 308-331), wide-build branch (Python
3.3+ always has `sys.maxunicode == 0x10ffff`, so the narrow-build branch at
line 325 is dead): re-encode the text as UTF-16-LE bytes, slice the byte
range `offset*2 : (offset+length)*2`, and strictly decode the slice back. -/
def Message.parse_entity (m : Message) (e : MessageEntity) : Except PyErr String :=
  let entity_text := utf16leBytes m.text
  let sliced := pySlice entity_text (e.offset * 2) ((e.offset + e.length) * 2)
  match decodeUtf16le sliced with
  | some s => .ok s
  | none => .error .unicodeDecodeError

/-- `Message.parse_entities` (src lines 333-358): filter the entity list by
type (defaulting to `MessageEntity.ALL_TYPES`) and pair each kept entity
with its `parse_entity` text.  The Python result is a dict keyed by the
entity objects, which are identity-distinct per list element in this
version (no `__eq__` on entities), so it is modelled as the association
list in entity order. -/
def Message.parse_entities (m : Message) (types : Option (List String)) :
    Except PyErr (List (MessageEntity × String)) :=
  let ts := types.getD MessageEntity.ALL_TYPES
  (m.entities.filter (fun e => ts.contains e.type)).mapM
    (fun e => (m.parse_entity e).map (fun s => (e, s)))

/-- `Message.reply_text` (src lines 253-255):
`self.bot.sendMessage(self.chat_id, *args)`. -/
def Message.reply_text (m : Message) (text : String) : Except PyErr BotResult :=
  match m.bot, m.chat with
  | some b, some c => .ok (b.sendMessage c.id text)
  | _, _ => .error .attributeError

/-- `Message.reply_photo` (src lines 257-259). -/
def Message.reply_photo (m : Message) (arg : String) : Except PyErr BotResult :=
  match m.bot, m.chat with
  | some b, some c => .ok (b.sendPhoto c.id arg)
  | _, _ => .error .attributeError

/-- `Message.reply_audio` (src lines 261-263). -/
def Message.reply_audio (m : Message) (arg : String) : Except PyErr BotResult :=
  match m.bot, m.chat with
  | some b, some c => .ok (b.sendAudio c.id arg)
  | _, _ => .error .attributeError

/-- `Message.reply_document` (src lines 265-267). -/
def Message.reply_document (m : Message) (arg : String) : Except PyErr BotResult :=
  match m.bot, m.chat with
  | some b, some c => .ok (b.sendDocument c.id arg)
  | _, _ => .error .attributeError

/-- `Message.reply_sticker` (src lines 269-271). -/
def Message.reply_sticker (m : Message) (arg : String) : Except PyErr BotResult :=
  match m.bot, m.chat with
  | some b, some c => .ok (b.sendSticker c.id arg)
  | _, _ => .error .attributeError

/-- `Message.reply_video` (src lines 273-275). -/
def Message.reply_video (m : Message) (arg : String) : Except PyErr BotResult :=
  match m.bot, m.chat with
  | some b, some c => .ok (b.sendVideo c.id arg)
  | _, _ => .error .attributeError

/-- `Message.reply_voice` (src lines 277-279). -/
def Message.reply_voice (m : Message) (arg : String) : Except PyErr BotResult :=
  match m.bot, m.chat with
  | some b, some c => .ok (b.sendVoice c.id arg)
  | _, _ => .error .attributeError

/-- `Message.reply_location` (src lines 281-283). -/
def Message.reply_location (m : Message) (arg : String) : Except PyErr BotResult :=
  match m.bot, m.chat with
  | some b, some c => .ok (b.sendLocation c.id arg)
  | _, _ => .error .attributeError

/-- `Message.reply_venue` (src lines 285-287). -/
def Message.reply_venue (m : Message) (arg : String) : Except PyErr BotResult :=
  match m.bot, m.chat with
  | some b, some c => .ok (b.sendVenue c.id arg)
  | _, _ => .error .attributeError

/-- `Message.reply_contact` (src lines 289-291). -/
def Message.reply_contact (m : Message) (arg : String) : Except PyErr BotResult :=
  match m.bot, m.chat with
  | some b, some c => .ok (b.sendContact c.id arg)
  | _, _ => .error .attributeError

/-- `Message.forward` (src lines 293-306):
`self.bot.forwardMessage(chat_id, from_chat_id=self.chat_id,
disable_notification=..., message_id=self.message_id)`. -/
def Message.forward (m : Message) (chat_id : Int) (disable_notif : Bool) :
    Except PyErr BotResult :=
  match m.bot, m.chat with
  | some b, some c => .ok (b.forwardMessage chat_id c.id disable_notif m.message_id)
  | _, _ => .error .attributeError

/-- A normalized form of the optional self-referential segments of
`to_dict`: absent, or one entry holding an already-serialized wire dict. -/
def optSeg (k : String) (o : Option PyDict) : PyDict :=
  match o with
  | none => []
  | some d => [(k, .vobj d)]

/-- The UTF-16 length of a string, in code units. -/
def utf16Len (s : String) : Nat :=
  (utf16Units s).length

/-- Position `p` is in the interior of a surrogate pair of the UTF-16
encoding of `s`: the code unit at `p` is a low surrogate (in an encoding of
well-formed text, low surrogates occur exactly as the second unit of a
pair). -/
def splitsSurrogatePair (s : String) (p : Nat) : Bool :=
  match (utf16Units s)[p]? with
  | some u => decide (0xDC00 ≤ u ∧ u < 0xE000)
  | none => false

/-- The invariant satisfied by every message `de_json` builds with a given
client: the two `de_list`-backed fields are present lists, the two optional
timestamps are never the (falsy) epoch zero, the stored client is the one
passed in, and the nested messages satisfy the same invariant. -/
inductive WireOk (bot : Option Bot) : Message → Prop where
  | mk : ∀ (core : MessageCore) (reply pinned : Option Message),
      (∃ ps, core.photo = some ps) →
      (∃ ps, core.new_chat_photo = some ps) →
      core.forward_date ≠ some 0 →
      core.edit_date ≠ some 0 →
      core.bot = bot →
      (∀ r, reply = some r → WireOk bot r) →
      (∀ p, pinned = some p → WireOk bot p) →
      WireOk bot (Message.mk core reply pinned)

/-- A message core with every optional field at its constructed default. -/
def baseCore : MessageCore :=
  { message_id := 1
    from_user := none
    date := 0
    chat := none
    forward_from := none
    forward_from_chat := none
    forward_date := none
    edit_date := none
    text := ""
    entities := []
    audio := none
    document := none
    photo := none
    sticker := none
    video := none
    voice := none
    caption := ""
    contact := none
    location := none
    venue := none
    new_chat_member := none
    left_chat_member := none
    new_chat_title := ""
    new_chat_photo := none
    delete_chat_photo := false
    group_chat_created := false
    supergroup_chat_created := false
    migrate_to_chat_id := 0
    migrate_from_chat_id := 0
    channel_chat_created := false
    bot := none }

/-- A message whose text contains a surrogate-pair emoji: the emoji spans
UTF-16 code units 6 and 7. -/
def helloMsg : Message :=
  Message.mk { baseCore with text := "Hello 😀 world" } none none

/-- `helloMsg` with a single entity of an unrecognized type tag. -/
def weirdMsg : Message :=
  Message.mk
    { baseCore with
      text := "Hello 😀 world"
      entities := [⟨"weird", 0, 1⟩] } none none

/-- `helloMsg` with three entities, one of an unrecognized type tag. -/
def entMsg : Message :=
  Message.mk
    { baseCore with
      text := "Hello 😀 world"
      entities := [⟨"bold", 0, 5⟩, ⟨"weird", 6, 2⟩, ⟨"url", 9, 5⟩] } none none

/-- A concrete client whose operations record their name and arguments. -/
def sampleBot : Bot :=
  { sendMessage := fun cid t => ⟨"sendMessage " ++ toString cid ++ " " ++ t⟩
    sendPhoto := fun cid t => ⟨"sendPhoto " ++ toString cid ++ " " ++ t⟩
    sendAudio := fun cid t => ⟨"sendAudio " ++ toString cid ++ " " ++ t⟩
    sendDocument := fun cid t => ⟨"sendDocument " ++ toString cid ++ " " ++ t⟩
    sendSticker := fun cid t => ⟨"sendSticker " ++ toString cid ++ " " ++ t⟩
    sendVideo := fun cid t => ⟨"sendVideo " ++ toString cid ++ " " ++ t⟩
    sendVoice := fun cid t => ⟨"sendVoice " ++ toString cid ++ " " ++ t⟩
    sendLocation := fun cid t => ⟨"sendLocation " ++ toString cid ++ " " ++ t⟩
    sendVenue := fun cid t => ⟨"sendVenue " ++ toString cid ++ " " ++ t⟩
    sendContact := fun cid t => ⟨"sendContact " ++ toString cid ++ " " ++ t⟩
    forwardMessage := fun cid fcid dn mid =>
      ⟨"forwardMessage " ++ toString cid ++ " " ++ toString fcid ++ " "
        ++ toString dn ++ " " ++ toString mid⟩ }

/-- A message with an injected client and a chat, for the shortcuts. -/
def botMsg : Message :=
  Message.mk { baseCore with chat := some ⟨42⟩, bot := some sampleBot } none none

/-- A two-key wire dict (the minimum `de_json` accepts). -/
def d0 : PyDict :=
  [("message_id", .vint 1), ("date", .vint 5)]

/-- The message `de_json` builds from `d0`: every optional field at its
constructed default, with the sender and chat null because `from` and
`chat` are absent from the wire dict. -/
def d0Msg : Message :=
  Message.mk
    { baseCore with
      date := 5
      photo := some []
      new_chat_photo := some [] } none none

/-- A small but representative wire dict. -/
def w0 : PyDict :=
  [("message_id", .vint 5), ("date", .vint 100),
   ("from", .vobj [("id", .vint 7)]), ("chat", .vobj [("id", .vint 9)]),
   ("text", .vstr "hi")]

/-- The message `de_json` builds from `w0`. -/
def wireMsg0 : Message :=
  Message.mk
    { baseCore with
      message_id := 5
      from_user := some ⟨7⟩
      date := 100
      chat := some ⟨9⟩
      text := "hi"
      photo := some []
      new_chat_photo := some [] } none none

/-- The message built by `Message.init` from only the required arguments
`(1, None, epoch 0, chat 9)`. -/
def initMsg0 : Message :=
  Message.mk { baseCore with chat := some ⟨9⟩ } none none

/-- The dict `de_json` leaves behind after being run on `d0`: the two
original keys (with `date` overwritten in place by a datetime) plus the 20
new keys appended by the deserializing assignments. -/
def mutatedD0 : PyDict :=
  [("message_id", .vint 1), ("date", .vdatetime 5),
   ("from_user", .vnone), ("chat", .vnone), ("entities", .vlist []),
   ("forward_from", .vnone), ("forward_from_chat", .vnone),
   ("forward_date", .vnone), ("reply_to_message", .vnone),
   ("edit_date", .vnone), ("audio", .vnone), ("document", .vnone),
   ("photo", .vlist []), ("sticker", .vnone), ("video", .vnone),
   ("voice", .vnone), ("contact", .vnone), ("location", .vnone),
   ("venue", .vnone), ("new_chat_member", .vnone),
   ("left_chat_member", .vnone), ("new_chat_photo", .vlist []),
   ("pinned_message", .vnone)]

/-- The entries `parse_entities` produces for `entMsg` with no filter. -/
def entL : List (MessageEntity × String) :=
  [(⟨"bold", 0, 5⟩, "Hello"), (⟨"url", 9, 5⟩, "world")]

theorem pyLookup_nil (k : String) : pyLookup [] k = none := rfl

theorem pyLookup_cons (k' k : String) (v : RVal) (rest : PyDict) :
    pyLookup ((k, v) :: rest) k' = if k' == k then some v else pyLookup rest k' := by
  by_cases h : k' == k <;> simp [pyLookup, List.lookup, h]

theorem pyLookup_emitIf_ne (b : Bool) (k k' : String) (v : RVal) (rest : PyDict)
    (h : (k' == k) = false) :
    pyLookup (emitIf b k v ++ rest) k' = pyLookup rest k' := by
  cases b <;> simp [emitIf, pyLookup_cons, h]

theorem pyLookup_emitIf_eq (b : Bool) (k : String) (v : RVal) (rest : PyDict) :
    pyLookup (emitIf b k v ++ rest) k = if b then some v else pyLookup rest k := by
  cases b <;> simp [emitIf, pyLookup_cons]

theorem pyLookup_cons_append_ne (k k' : String) (v : RVal) (d rest : PyDict)
    (h : (k' == k) = false) :
    pyLookup (((k, v) :: d) ++ rest) k' = pyLookup (d ++ rest) k' := by
  simp [pyLookup_cons, h]

theorem pyLookup_optSeg_ne (k k' : String) (o : Option PyDict) (rest : PyDict)
    (h : (k' == k) = false) :
    pyLookup (optSeg k o ++ rest) k' = pyLookup rest k' := by
  cases o <;> simp [optSeg, pyLookup_cons, h]

theorem pyLookup_optSeg_eq (k : String) (o : Option PyDict) (rest : PyDict) :
    pyLookup (optSeg k o ++ rest) k =
      match o with
      | none => pyLookup rest k
      | some d => some (.vobj d) := by
  cases o <;> simp [optSeg, pyLookup_cons]

theorem pyLookup_pyDictSet_ne (d : PyDict) (k k' : String) (v : RVal)
    (h : ¬ k' = k) :
    pyLookup (pyDictSet d k v) k' = pyLookup d k' := by
  induction d with
  | nil => simp [pyDictSet, pyLookup_cons, h]
  | cons p rest ih =>
    obtain ⟨a, b⟩ := p
    by_cases ha : a == k
    · have : a = k := by simpa using ha
      subst this
      simp [pyDictSet, pyLookup_cons, h]
    · simp [pyDictSet, ha, pyLookup_cons, ih]

/-- C10: a `Message` constructed with only the required arguments has text,
caption and new-chat-title equal to the empty string, an empty entity list,
migrate ids equal to 0, and all four chat-lifecycle flags false — not null. -/
theorem claim_C10_defaults (mid : Int) (u : Option User) (t : Int)
    (c : Option Chat) (b : Option Bot) :
    (Message.init (.vint mid) u t c b []).map
      (fun msg => (msg.text, msg.caption, msg.new_chat_title, msg.entities,
        msg.migrate_to_chat_id, msg.migrate_from_chat_id, msg.delete_chat_photo,
        msg.group_chat_created, msg.supergroup_chat_created,
        msg.channel_chat_created))
      = .ok ("", "", "", ([] : List MessageEntity), 0, 0, false, false, false, false) := rfl

/-- C8: the derived `chat_id` of any message whose chat is present equals
`chat.id`, and in particular a message constructed by `__init__` with only
the required fields set already satisfies it. -/
theorem claim_C8_chat_id :
    (∀ (m : Message) (c : Chat), m.chat = some c → m.chat_id = .ok c.id) ∧
    (∀ (mid : Int) (u : Option User) (t : Int) (c : Chat) (b : Option Bot)
      (msg : Message),
      Message.init (.vint mid) u t (some c) b [] = .ok msg →
      msg.chat_id = .ok c.id) := by
  constructor
  · intro m c h
    simp [Message.chat_id, h]
  · intro mid u t c b msg h
    have hmsg : msg = Message.mk
        { baseCore with
          message_id := mid
          from_user := u
          date := t
          chat := some c
          bot := b } none none := by
      have hval : Message.init (.vint mid) u t (some c) b [] = .ok (Message.mk
          { baseCore with
            message_id := mid
            from_user := u
            date := t
            chat := some c
            bot := b } none none) := rfl
      rw [hval] at h
      exact (Except.ok.injEq _ _).mp h.symm
    subst hmsg
    rfl

theorem claim_C8_chat_id_witness :
    Message.init (.vint 1) none 0 (some ⟨9⟩) none [] = .ok initMsg0 ∧
    initMsg0.chat_id = .ok 9 := by
  refine ⟨rfl, ?_⟩
  exact claim_C8_chat_id.2 1 none 0 ⟨9⟩ none initMsg0 rfl

/-- C7: each reply shortcut delegates to the corresponding send operation of
the injected client with this message's chat id as the first argument and
returns the client's result unchanged, and `forward` calls `forwardMessage`
with the destination chat id as given, this message's own chat id as
`from_chat_id` and this message's own id as `message_id`. -/
theorem claim_C7_shortcuts (m : Message) (b : Bot) (c : Chat)
    (text arg : String) (cid : Int) (dn : Bool)
    (hb : m.bot = some b) (hc : m.chat = some c) :
    m.reply_text text = .ok (b.sendMessage c.id text) ∧
    m.reply_photo arg = .ok (b.sendPhoto c.id arg) ∧
    m.reply_audio arg = .ok (b.sendAudio c.id arg) ∧
    m.reply_document arg = .ok (b.sendDocument c.id arg) ∧
    m.reply_sticker arg = .ok (b.sendSticker c.id arg) ∧
    m.reply_video arg = .ok (b.sendVideo c.id arg) ∧
    m.reply_voice arg = .ok (b.sendVoice c.id arg) ∧
    m.reply_location arg = .ok (b.sendLocation c.id arg) ∧
    m.reply_venue arg = .ok (b.sendVenue c.id arg) ∧
    m.reply_contact arg = .ok (b.sendContact c.id arg) ∧
    m.forward cid dn = .ok (b.forwardMessage cid c.id dn m.message_id) := by
  refine ⟨?_, ?_, ?_, ?_, ?_, ?_, ?_, ?_, ?_, ?_, ?_⟩ <;>
    simp [Message.reply_text, Message.reply_photo, Message.reply_audio,
      Message.reply_document, Message.reply_sticker, Message.reply_video,
      Message.reply_voice, Message.reply_location, Message.reply_venue,
      Message.reply_contact, Message.forward, hb, hc]

theorem bind_ok_destruct {α β : Type} (x : Except PyErr α) (f : α → Except PyErr β)
    (r : β) (h : x >>= f = .ok r) : ∃ a, x = .ok a ∧ f a = .ok r := by
  cases x with
  | error e => simp [Bind.bind, Except.bind] at h
  | ok a => exact ⟨a, rfl, by simpa [Bind.bind, Except.bind] using h⟩

theorem _fromtimestamp_ne_some_zero (v : RVal) (ot : Option Int)
    (h : Message._fromtimestamp v = .ok ot) : ot ≠ some 0 := by
  cases v <;> simp only [Message._fromtimestamp, pyTruthy] at h <;>
    (try split at h) <;> (try cases h) <;> simp_all

/-- Destruction of a successful `de_json` run on a non-empty wire dict: the
result is a constructed message, the `date` and `message_id` keys were
present, the two `de_list`-backed fields are present lists, the optional
timestamps come from `_fromtimestamp`, the stored client is the argument,
and the nested messages are themselves `de_json` results. -/
theorem de_json_vobj_ok_destruct (fields : PyDict) (bot : Option Bot)
    (r : Option Message) (hne : fields.isEmpty = false)
    (h : Message.de_json (.vobj fields) bot = .ok r) :
    ∃ (core : MessageCore) (reply pinned : Option Message),
      r = some (Message.mk core reply pinned) ∧
      (∃ v, pyLookup fields "date" = some v) ∧
      (∃ v, pyLookup fields "message_id" = some v) ∧
      (∃ ps, core.photo = some ps) ∧
      (∃ ps, core.new_chat_photo = some ps) ∧
      Message._fromtimestamp (pyGetD fields "forward_date") = .ok core.forward_date ∧
      Message._fromtimestamp (pyGetD fields "edit_date") = .ok core.edit_date ∧
      core.bot = bot ∧
      Message.de_json (pyGetD fields "reply_to_message") bot = .ok reply ∧
      Message.de_json (pyGetD fields "pinned_message") bot = .ok pinned ∧
      User.de_json (pyGetD fields "from") bot = .ok core.from_user ∧
      Chat.de_json (pyGetD fields "chat") bot = .ok core.chat := by
  rw [Message.de_json.eq_def] at h
  have htr : pyTruthy (.vobj fields) = true := by simp [pyTruthy, hne]
  rw [htr] at h
  simp only [Bool.not_true, Bool.false_eq_true, if_false] at h
  obtain ⟨fu, hfu, h⟩ := bind_ok_destruct _ _ _ h
  obtain ⟨dt, hdt, h⟩ := bind_ok_destruct _ _ _ h
  obtain ⟨ch, hch, h⟩ := bind_ok_destruct _ _ _ h
  obtain ⟨es, hes, h⟩ := bind_ok_destruct _ _ _ h
  obtain ⟨ff, hff, h⟩ := bind_ok_destruct _ _ _ h
  obtain ⟨ffc, hffc, h⟩ := bind_ok_destruct _ _ _ h
  obtain ⟨fd, hfd, h⟩ := bind_ok_destruct _ _ _ h
  obtain ⟨rp, hrp, h⟩ := bind_ok_destruct _ _ _ h
  obtain ⟨ed, hed, h⟩ := bind_ok_destruct _ _ _ h
  obtain ⟨au, hau, h⟩ := bind_ok_destruct _ _ _ h
  obtain ⟨doc, hdoc, h⟩ := bind_ok_destruct _ _ _ h
  obtain ⟨ph, hph, h⟩ := bind_ok_destruct _ _ _ h
  obtain ⟨st, hst, h⟩ := bind_ok_destruct _ _ _ h
  obtain ⟨vi, hvi, h⟩ := bind_ok_destruct _ _ _ h
  obtain ⟨vo, hvo, h⟩ := bind_ok_destruct _ _ _ h
  obtain ⟨co, hco, h⟩ := bind_ok_destruct _ _ _ h
  obtain ⟨lo, hlo, h⟩ := bind_ok_destruct _ _ _ h
  obtain ⟨ve, hve, h⟩ := bind_ok_destruct _ _ _ h
  obtain ⟨ncm, hncm, h⟩ := bind_ok_destruct _ _ _ h
  obtain ⟨lcm, hlcm, h⟩ := bind_ok_destruct _ _ _ h
  obtain ⟨ncp, hncp, h⟩ := bind_ok_destruct _ _ _ h
  obtain ⟨pm, hpm, h⟩ := bind_ok_destruct _ _ _ h
  cases hbot : (pyLookup fields "bot").isSome with
  | true => simp [hbot] at h
  | false =>
    simp only [hbot, Bool.false_eq_true, if_false] at h
    cases hmid : pyLookup fields "message_id" with
    | none => simp [hmid, Bind.bind, Except.bind] at h
    | some midv =>
      simp only [hmid] at h
      obtain ⟨midv2, hmidv2, h⟩ := bind_ok_destruct _ _ _ h
      obtain ⟨mid, hmidc, h⟩ := bind_ok_destruct _ _ _ h
      obtain ⟨tx, htx, h⟩ := bind_ok_destruct _ _ _ h
      obtain ⟨cp, hcp, h⟩ := bind_ok_destruct _ _ _ h
      obtain ⟨nct, hnct, h⟩ := bind_ok_destruct _ _ _ h
      obtain ⟨mtc, hmtc, h⟩ := bind_ok_destruct _ _ _ h
      obtain ⟨mfc, hmfc, h⟩ := bind_ok_destruct _ _ _ h
      have hr := (Except.ok.injEq _ _).mp h
      refine ⟨_, rp, pm, hr.symm, ?_, ⟨midv, rfl⟩, ⟨ph, rfl⟩, ⟨ncp, rfl⟩,
        hfd, hed, rfl, hrp, hpm, hfu, hch⟩
      cases hdv : pyLookup fields "date" with
      | none => rw [hdv] at hdt; simp at hdt
      | some v => exact ⟨v, rfl⟩

theorem mapM_pair_ok_of_all_ok (xs : List MessageEntity)
    (g : MessageEntity → Except PyErr (MessageEntity × String))
    (hall : ∀ x ∈ xs, ∃ y, g x = .ok y) : ∃ ys, xs.mapM' g = .ok ys := by
  induction xs with
  | nil => exact ⟨[], rfl⟩
  | cons a as ih =>
    obtain ⟨y, hy⟩ := hall a (by simp)
    obtain ⟨ys, hys⟩ := ih (fun x hx => hall x (by simp [hx]))
    refine ⟨y :: ys, ?_⟩
    rw [List.mapM'_cons, hy, hys]
    rfl

theorem mapM_pair_ok_destruct (xs : List MessageEntity)
    (f : MessageEntity → Except PyErr String) (l : List (MessageEntity × String))
    (h : xs.mapM' (fun e => (f e).map (fun s => (e, s))) = .ok l) :
    l.map Prod.fst = xs ∧ ∀ p ∈ l, f p.1 = .ok p.2 := by
  induction xs generalizing l with
  | nil =>
    obtain rfl : l = [] := by
      simpa [List.mapM'_nil, Pure.pure, Except.pure] using h.symm
    simp
  | cons a as ih =>
    rw [List.mapM'_cons] at h
    obtain ⟨y, hy, h⟩ := bind_ok_destruct _ _ _ h
    obtain ⟨ys, hys, h⟩ := bind_ok_destruct _ _ _ h
    have hl : l = y :: ys := by
      simpa [Pure.pure, Except.pure] using h.symm
    subst hl
    obtain ⟨h1, h2⟩ := ih ys hys
    cases hfa : f a with
    | error e => rw [hfa] at hy; simp [Except.map] at hy
    | ok s =>
      rw [hfa] at hy
      simp [Except.map] at hy
      subst hy
      refine ⟨by simp [h1], ?_⟩
      intro p hp
      rcases List.mem_cons.mp hp with rfl | hp
      · exact hfa
      · exact h2 p hp

/-- C6 fails as stated: with no type filter, `parse_entities` still filters
by the recognized type tags, so a message with one entity of an unknown
type yields an empty mapping, not one entry per entity. -/
theorem claim_C6_counterexample :
    Message.parse_entities weirdMsg none = .ok [] ∧
    weirdMsg.entities.length = 1 := ⟨rfl, rfl⟩

/-- C6 (amended): when every entity of the message extracts successfully,
`parse_entities` succeeds, and any successful result maps exactly the
entities whose type tag is in the filter (the recognized-tag list
`ALL_TYPES` when no filter is given), in order, each paired with its
`parse_entity` text. -/
theorem claim_C6_amended :
    (∀ (m : Message) (ts : Option (List String)),
      (∀ e ∈ m.entities, ∃ s, m.parse_entity e = .ok s) →
      ∃ l, m.parse_entities ts = .ok l) ∧
    (∀ (m : Message) (ts : Option (List String))
      (l : List (MessageEntity × String)),
      m.parse_entities ts = .ok l →
      l.map Prod.fst =
        m.entities.filter
          (fun e => (ts.getD MessageEntity.ALL_TYPES).contains e.type) ∧
      ∀ p ∈ l, m.parse_entity p.1 = .ok p.2) := by
  constructor
  · intro m ts hall
    simp only [Message.parse_entities]
    rw [← List.mapM'_eq_mapM]
    apply mapM_pair_ok_of_all_ok
    intro e he
    obtain ⟨s, hs⟩ := hall e (List.mem_of_mem_filter he)
    exact ⟨(e, s), by simp [hs, Except.map]⟩
  · intro m ts l h
    simp only [Message.parse_entities] at h
    rw [← List.mapM'_eq_mapM] at h
    exact mapM_pair_ok_destruct _ _ _ h

theorem claim_C6_witness :
    Message.parse_entities entMsg none = .ok entL ∧
    entL.map Prod.fst =
      entMsg.entities.filter
        (fun e => ((none : Option (List String)).getD
          MessageEntity.ALL_TYPES).contains e.type) ∧
    ∀ p ∈ entL, entMsg.parse_entity p.1 = .ok p.2 :=
  ⟨rfl, (claim_C6_amended.2 entMsg none entL rfl).1,
    (claim_C6_amended.2 entMsg none entL rfl).2⟩

/-- C9 fails as stated: `de_json` mutates its input mapping — after a run on
the two-key dict `d0`, the key `from_user` (absent from the input) is
present with value `None`. -/
theorem claim_C9_counterexample :
    (Message.de_json_data d0 none).map (fun d => pyLookup d "from_user") =
      .ok (some .vnone) ∧
    pyLookup d0 "from_user" = none := by
  constructor
  · simp [Message.de_json_data, Message.de_json, User.de_json, Chat.de_json,
      MessageEntity.de_list, PhotoSize.de_list, Audio.de_json, Document.de_json,
      Sticker.de_json, Video.de_json, Voice.de_json, Contact.de_json,
      Location.de_json, Venue.de_json, Message._fromtimestamp, pyFromTimestamp,
      pyGetD, pyLookup, pyGetDefault, pyTruthy, List.lookup, d0, pyDictSet,
      optRVal, Except.bind, Except.pure, Bind.bind, Pure.pure, Except.map]
  · rfl

/-- C9 (amended): `de_json` does mutate its input mapping, but only at the
22 deserialization keys it assigns; the value of every other key is left
unchanged.  Serialization and entity extraction take the message as a pure
value and mutate nothing. -/
theorem claim_C9_amended (d : PyDict) (bot : Option Bot) (d' : PyDict)
    (k : String) (h : Message.de_json_data d bot = .ok d')
    (hk : ¬ k ∈ Message.de_json_assigned_keys) :
    pyLookup d' k = pyLookup d k := by
  simp only [Message.de_json_assigned_keys, List.mem_cons, List.not_mem_nil,
    or_false] at hk
  push_neg at hk
  obtain ⟨k1, k2, k3, k4, k5, k6, k7, k8, k9, k10, k11, k12, k13, k14, k15,
    k16, k17, k18, k19, k20, k21, k22⟩ := hk
  simp only [Message.de_json_data] at h
  obtain ⟨fu, hfu, h⟩ := bind_ok_destruct _ _ _ h
  obtain ⟨dt, hdt, h⟩ := bind_ok_destruct _ _ _ h
  obtain ⟨ch, hch, h⟩ := bind_ok_destruct _ _ _ h
  obtain ⟨es, hes, h⟩ := bind_ok_destruct _ _ _ h
  obtain ⟨ff, hff, h⟩ := bind_ok_destruct _ _ _ h
  obtain ⟨ffc, hffc, h⟩ := bind_ok_destruct _ _ _ h
  obtain ⟨fd, hfd, h⟩ := bind_ok_destruct _ _ _ h
  obtain ⟨rp, hrp, h⟩ := bind_ok_destruct _ _ _ h
  obtain ⟨ed, hed, h⟩ := bind_ok_destruct _ _ _ h
  obtain ⟨au, hau, h⟩ := bind_ok_destruct _ _ _ h
  obtain ⟨doc, hdoc, h⟩ := bind_ok_destruct _ _ _ h
  obtain ⟨ph, hph, h⟩ := bind_ok_destruct _ _ _ h
  obtain ⟨st, hst, h⟩ := bind_ok_destruct _ _ _ h
  obtain ⟨vi, hvi, h⟩ := bind_ok_destruct _ _ _ h
  obtain ⟨vo, hvo, h⟩ := bind_ok_destruct _ _ _ h
  obtain ⟨co, hco, h⟩ := bind_ok_destruct _ _ _ h
  obtain ⟨lo, hlo, h⟩ := bind_ok_destruct _ _ _ h
  obtain ⟨ve, hve, h⟩ := bind_ok_destruct _ _ _ h
  obtain ⟨ncm, hncm, h⟩ := bind_ok_destruct _ _ _ h
  obtain ⟨lcm, hlcm, h⟩ := bind_ok_destruct _ _ _ h
  obtain ⟨ncp, hncp, h⟩ := bind_ok_destruct _ _ _ h
  obtain ⟨pm, hpm, h⟩ := bind_ok_destruct _ _ _ h
  have hd' := (Except.ok.injEq _ _).mp h
  subst hd'
  rw [pyLookup_pyDictSet_ne _ _ _ _ k22, pyLookup_pyDictSet_ne _ _ _ _ k21,
    pyLookup_pyDictSet_ne _ _ _ _ k20, pyLookup_pyDictSet_ne _ _ _ _ k19,
    pyLookup_pyDictSet_ne _ _ _ _ k18, pyLookup_pyDictSet_ne _ _ _ _ k17,
    pyLookup_pyDictSet_ne _ _ _ _ k16, pyLookup_pyDictSet_ne _ _ _ _ k15,
    pyLookup_pyDictSet_ne _ _ _ _ k14, pyLookup_pyDictSet_ne _ _ _ _ k13,
    pyLookup_pyDictSet_ne _ _ _ _ k12, pyLookup_pyDictSet_ne _ _ _ _ k11,
    pyLookup_pyDictSet_ne _ _ _ _ k10, pyLookup_pyDictSet_ne _ _ _ _ k9,
    pyLookup_pyDictSet_ne _ _ _ _ k8, pyLookup_pyDictSet_ne _ _ _ _ k7,
    pyLookup_pyDictSet_ne _ _ _ _ k6, pyLookup_pyDictSet_ne _ _ _ _ k5,
    pyLookup_pyDictSet_ne _ _ _ _ k4, pyLookup_pyDictSet_ne _ _ _ _ k3,
    pyLookup_pyDictSet_ne _ _ _ _ k2, pyLookup_pyDictSet_ne _ _ _ _ k1]

theorem claim_C9_witness :
    Message.de_json_data d0 none = .ok mutatedD0 ∧
    pyLookup mutatedD0 "text" = pyLookup d0 "text" := by
  have h : Message.de_json_data d0 none = .ok mutatedD0 := by
    simp [Message.de_json_data, Message.de_json, User.de_json, Chat.de_json,
      MessageEntity.de_list, PhotoSize.de_list, Audio.de_json, Document.de_json,
      Sticker.de_json, Video.de_json, Voice.de_json, Contact.de_json,
      Location.de_json, Venue.de_json, Message._fromtimestamp, pyFromTimestamp,
      pyGetD, pyLookup, pyGetDefault, pyTruthy, List.lookup, d0, mutatedD0,
      pyDictSet, optRVal, Except.bind, Except.pure, Bind.bind, Pure.pure]
  exact ⟨h, claim_C9_amended d0 none mutatedD0 "text" h
    (by simp [Message.de_json_assigned_keys])⟩

/-- C3 fails as stated: `de_json` of the empty mapping returns `None`
instead of raising a missing-field error, because the empty dict is falsy
and takes the `if not data: return None` branch. -/
theorem claim_C3_counterexample :
    Message.de_json (.vobj []) none = .ok none := by
  simp [Message.de_json, pyTruthy]

/-- C3 (amended): `de_json` returns `None` for a null input and also for an
empty mapping; given a non-empty mapping it raises a missing-field error
when `date` (`KeyError`) or `message_id` (missing required argument
`TypeError`) is absent, while an absent sender or chat deserializes to a
null field without error. -/
theorem claim_C3_amended :
    (∀ bot, Message.de_json .vnone bot = .ok none) ∧
    (∀ bot, Message.de_json (.vobj []) bot = .ok none) ∧
    (∀ (d : PyDict) (bot : Option Bot), d ≠ [] → pyLookup d "date" = none →
      (Message.de_json (.vobj d) bot).isOk = false) ∧
    (∀ (d : PyDict) (bot : Option Bot), d ≠ [] → pyLookup d "message_id" = none →
      (Message.de_json (.vobj d) bot).isOk = false) ∧
    (∀ (d : PyDict) (bot : Option Bot) (m : Message),
      pyLookup d "from" = none → pyLookup d "chat" = none →
      Message.de_json (.vobj d) bot = .ok (some m) →
      m.from_user = none ∧ m.chat = none) ∧
    Message.de_json (.vobj d0) none = .ok (some d0Msg) ∧
    d0Msg.from_user = none ∧ d0Msg.chat = none := by
  refine ⟨?_, ?_, ?_, ?_, ?_, ?_, rfl, rfl⟩
  · intro bot; simp [Message.de_json, pyTruthy]
  · intro bot; simp [Message.de_json, pyTruthy]
  · intro d bot hne hdate
    have hempty : d.isEmpty = false := by cases d <;> simp_all
    cases hres : Message.de_json (.vobj d) bot with
    | error e => simp [Except.isOk, Except.toBool, hres]
    | ok r =>
      obtain ⟨core, reply, pinned, _, ⟨v, hv⟩, _⟩ :=
        de_json_vobj_ok_destruct d bot r hempty hres
      rw [hdate] at hv
      exact absurd hv (by simp)
  · intro d bot hne hmid
    have hempty : d.isEmpty = false := by cases d <;> simp_all
    cases hres : Message.de_json (.vobj d) bot with
    | error e => simp [Except.isOk, Except.toBool, hres]
    | ok r =>
      obtain ⟨core, reply, pinned, _, _, ⟨v, hv⟩, _⟩ :=
        de_json_vobj_ok_destruct d bot r hempty hres
      rw [hmid] at hv
      exact absurd hv (by simp)
  · intro d bot m hfrom hchat hok
    have hempty : d.isEmpty = false := by
      cases d with
      | nil => simp [Message.de_json, pyTruthy] at hok
      | cons a l => rfl
    obtain ⟨core, reply, pinned, hm, -, -, -, -, -, -, -, -, -, hfu, hch⟩ :=
      de_json_vobj_ok_destruct d bot (some m) hempty hok
    obtain rfl : m = Message.mk core reply pinned := by
      injection hm with hm2
    have hgf : pyGetD d "from" = .vnone := by
      show (pyLookup d "from").getD .vnone = .vnone
      rw [hfrom]
      rfl
    have hgc : pyGetD d "chat" = .vnone := by
      show (pyLookup d "chat").getD .vnone = .vnone
      rw [hchat]
      rfl
    rw [hgf] at hfu
    rw [hgc] at hch
    have hfu2 : core.from_user = none := by
      have h1 : (Except.ok (none : Option User) : Except PyErr (Option User))
          = .ok core.from_user := hfu
      exact ((Except.ok.injEq _ _).mp h1).symm
    have hch2 : core.chat = none := by
      have h1 : (Except.ok (none : Option Chat) : Except PyErr (Option Chat))
          = .ok core.chat := hch
      exact ((Except.ok.injEq _ _).mp h1).symm
    exact ⟨hfu2, hch2⟩
  · simp [Message.de_json, d0, d0Msg, baseCore, pyTruthy, pyGetD,
      pyGetDefault, pyLookup, List.lookup, User.de_json, Chat.de_json,
      MessageEntity.de_list, Audio.de_json, Document.de_json,
      PhotoSize.de_list, Sticker.de_json, Video.de_json, Voice.de_json,
      Contact.de_json, Location.de_json, Venue.de_json, pyFromTimestamp,
      pyInt, asStr, Message._fromtimestamp, Bind.bind, Except.bind,
      Pure.pure, Except.pure, Except.map]

theorem claim_C3_witness :
    Message.de_json .vnone none = .ok none ∧
    Message.de_json (.vobj []) none = .ok none ∧
    (Message.de_json (.vobj [("text", .vstr "hi")]) none).isOk = false ∧
    (Message.de_json (.vobj [("date", .vint 5)]) none).isOk = false ∧
    pyLookup d0 "from" = none ∧ pyLookup d0 "chat" = none ∧
    Message.de_json (.vobj d0) none = .ok (some d0Msg) ∧
    d0Msg.from_user = none ∧ d0Msg.chat = none :=
  ⟨claim_C3_amended.1 none, claim_C3_amended.2.1 none,
   claim_C3_amended.2.2.1 _ none (by simp) rfl,
   claim_C3_amended.2.2.2.1 _ none (by simp) rfl,
   rfl, rfl, claim_C3_amended.2.2.2.2.2.1,
   claim_C3_amended.2.2.2.2.1 d0 none d0Msg rfl rfl
     claim_C3_amended.2.2.2.2.2.1⟩

theorem claim_C7_shortcuts_witness :
    botMsg.bot = some sampleBot ∧ botMsg.chat = some ⟨42⟩ ∧
    (botMsg.reply_text "hi" = .ok (sampleBot.sendMessage 42 "hi") ∧
     botMsg.reply_photo "x" = .ok (sampleBot.sendPhoto 42 "x") ∧
     botMsg.reply_audio "x" = .ok (sampleBot.sendAudio 42 "x") ∧
     botMsg.reply_document "x" = .ok (sampleBot.sendDocument 42 "x") ∧
     botMsg.reply_sticker "x" = .ok (sampleBot.sendSticker 42 "x") ∧
     botMsg.reply_video "x" = .ok (sampleBot.sendVideo 42 "x") ∧
     botMsg.reply_voice "x" = .ok (sampleBot.sendVoice 42 "x") ∧
     botMsg.reply_location "x" = .ok (sampleBot.sendLocation 42 "x") ∧
     botMsg.reply_venue "x" = .ok (sampleBot.sendVenue 42 "x") ∧
     botMsg.reply_contact "x" = .ok (sampleBot.sendContact 42 "x") ∧
     botMsg.forward 7 false =
       .ok (sampleBot.forwardMessage 7 42 false botMsg.message_id)) :=
  ⟨rfl, rfl, claim_C7_shortcuts botMsg sampleBot ⟨42⟩ "hi" "x" 7 false rfl rfl⟩

theorem charUtf16Units_cases (c : Char) :
    (c.val.toNat < 0x10000 ∧ charUtf16Units c = [c.val.toNat] ∧
      (c.val.toNat < 0xD800 ∨ 0xE000 ≤ c.val.toNat)) ∨
    (0x10000 ≤ c.val.toNat ∧ c.val.toNat < 0x110000 ∧
      charUtf16Units c = [0xD800 + (c.val.toNat - 0x10000) / 0x400,
        0xDC00 + (c.val.toNat - 0x10000) % 0x400]) := by
  have hv := c.valid
  by_cases h : c.val.toNat < 0x10000
  · left
    refine ⟨h, by simp [charUtf16Units, h], ?_⟩
    rcases hv with h1 | ⟨h1, h2⟩
    · exact Or.inl h1
    · right; omega
  · right
    rcases hv with h1 | ⟨h1, h2⟩
    · omega
    · exact ⟨by omega, h2, by simp [charUtf16Units, h]⟩

theorem mem_encodeChars_lt (cs : List Char) :
    ∀ u ∈ cs.flatMap charUtf16Units, u < 0x10000 := by
  intro u hu
  rw [List.mem_flatMap] at hu
  obtain ⟨c, _, hu⟩ := hu
  rcases charUtf16Units_cases c with ⟨h1, heq, h3⟩ | ⟨h1, h2, heq⟩ <;> rw [heq] at hu
  · simp at hu; omega
  · simp at hu
    rcases hu with h | h <;> omega

theorem bytesToUnits_flatMap (us : List Nat) (h : ∀ u ∈ us, u < 0x10000) :
    bytesToUnits (us.flatMap unitLeBytes) = some us := by
  induction us with
  | nil => rfl
  | cons u rest ih =>
    have hu : u < 0x10000 := h u (by simp)
    have hrest := ih (fun x hx => h x (by simp [hx]))
    rw [List.flatMap_cons]
    show bytesToUnits (u % 256 :: u / 256 % 256 :: rest.flatMap unitLeBytes) = _
    rw [bytesToUnits, hrest]
    have huu : u % 256 + 256 * (u / 256 % 256) = u := by omega
    simp [huu]

theorem flatMap_unitLeBytes_drop (us : List Nat) (k : Nat) :
    (us.flatMap unitLeBytes).drop (k * 2) = (us.drop k).flatMap unitLeBytes := by
  induction us generalizing k with
  | nil => simp
  | cons u rest ih =>
    cases k with
    | zero => simp
    | succ j =>
      rw [List.flatMap_cons]
      show List.drop ((j + 1) * 2) (u % 256 :: u / 256 % 256 :: rest.flatMap unitLeBytes) = _
      have h2 : (j + 1) * 2 = j * 2 + 1 + 1 := by omega
      rw [h2]
      simp only [List.drop_succ_cons]
      exact ih j

theorem flatMap_unitLeBytes_take (us : List Nat) (k : Nat) :
    (us.flatMap unitLeBytes).take (k * 2) = (us.take k).flatMap unitLeBytes := by
  induction us generalizing k with
  | nil => simp
  | cons u rest ih =>
    cases k with
    | zero => simp
    | succ j =>
      rw [List.flatMap_cons]
      show List.take ((j + 1) * 2) (u % 256 :: u / 256 % 256 :: rest.flatMap unitLeBytes) = _
      have h2 : (j + 1) * 2 = j * 2 + 1 + 1 := by omega
      rw [h2]
      simp only [List.take_succ_cons]
      simp [List.flatMap_cons, unitLeBytes, ih j]

/-- `parse_entity` computed at the level of UTF-16 code units: slicing the
byte string at even byte positions is slicing the unit sequence. -/
theorem parse_entity_units (m : Message) (e : MessageEntity) :
    Message.parse_entity m e =
      match decodeUnits (((utf16Units m.text).drop e.offset).take e.length) with
      | some cs => .ok (String.mk cs)
      | none => .error .unicodeDecodeError := by
  unfold Message.parse_entity pySlice utf16leBytes
  dsimp only
  have h2 : (e.offset + e.length) * 2 - e.offset * 2 = e.length * 2 := by omega
  rw [h2, flatMap_unitLeBytes_drop, flatMap_unitLeBytes_take]
  unfold decodeUtf16le
  have hlt : ∀ u ∈ List.take e.length (List.drop e.offset (utf16Units m.text)),
      u < 0x10000 :=
    fun u hu => mem_encodeChars_lt m.text.data u
      (List.drop_subset _ _ (List.take_subset _ _ hu))
  rw [bytesToUnits_flatMap _ hlt]
  cases hdec : decodeUnits (((utf16Units m.text).drop e.offset).take e.length) <;>
    simp [Option.bind, hdec]

theorem decodeUnits_cons (u : Nat) (rest : List Nat) :
    decodeUnits (u :: rest) =
      if u < 0xD800 ∨ 0xE000 ≤ u then
        (decodeUnits rest).map (fun cs => Char.ofNat u :: cs)
      else if u < 0xDC00 then
        match rest with
        | lo :: rest2 =>
          if 0xDC00 ≤ lo ∧ lo < 0xE000 then
            (decodeUnits rest2).map (fun cs =>
              Char.ofNat (0x10000 + (u - 0xD800) * 0x400 + (lo - 0xDC00)) :: cs)
          else none
        | [] => none
      else none := by
  cases rest <;> rfl

theorem decodeUnits_encChar (c : Char) (rest : List Nat) :
    decodeUnits (charUtf16Units c ++ rest) =
      (decodeUnits rest).map (fun cs => c :: cs) := by
  rcases charUtf16Units_cases c with ⟨h1, heq, h3⟩ | ⟨h1, h2, heq⟩
  · rw [heq]
    simp only [List.cons_append, List.nil_append]
    rw [decodeUnits_cons, if_pos h3]
    have hc : Char.ofNat c.val.toNat = c := Char.ofNat_toNat c
    rw [hc]
  · rw [heq]
    simp only [List.cons_append, List.nil_append]
    rw [decodeUnits_cons]
    rw [if_neg (by omega), if_pos (by omega)]
    dsimp only
    rw [if_pos (by omega)]
    have hval : 0x10000 + (0xD800 + (c.val.toNat - 0x10000) / 0x400 - 0xD800) * 0x400
        + (0xDC00 + (c.val.toNat - 0x10000) % 0x400 - 0xDC00) = c.val.toNat := by
      omega
    rw [hval]
    have hc : Char.ofNat c.val.toNat = c := Char.ofNat_toNat c
    rw [hc]

theorem decodeUnits_encode (cs : List Char) :
    decodeUnits (cs.flatMap charUtf16Units) = some cs := by
  induction cs with
  | nil => rfl
  | cons c rest ih =>
    rw [List.flatMap_cons, decodeUnits_encChar, ih]
    rfl

theorem decodeUnits_head_low (u : Nat) (rest : List Nat)
    (h1 : 0xDC00 ≤ u) (h2 : u < 0xE000) : decodeUnits (u :: rest) = none := by
  rw [decodeUnits_cons, if_neg (by omega), if_neg (by omega)]

theorem decodeUnits_last_high (l : List Nat) (u : Nat) (hl : l.getLast? = some u)
    (h1 : 0xD800 ≤ u) (h2 : u < 0xDC00) : decodeUnits l = none := by
  have aux : ∀ (n : Nat) (l : List Nat) (u : Nat), l.length ≤ n →
      l.getLast? = some u → 0xD800 ≤ u → u < 0xDC00 → decodeUnits l = none := by
    intro n
    induction n with
    | zero =>
      intro l u hlen hl _ _
      cases l with
      | nil => simp at hl
      | cons a t => simp at hlen
    | succ n ih =>
      intro l u hlen hl hu1 hu2
      match l with
      | [] => simp at hl
      | [a] =>
        simp only [List.getLast?_singleton, Option.some.injEq] at hl
        subst hl
        rw [decodeUnits_cons, if_neg (by omega), if_pos (by omega)]
      | a :: b :: t =>
        rw [List.getLast?_cons_cons] at hl
        by_cases hbasic : a < 0xD800 ∨ 0xE000 ≤ a
        · rw [decodeUnits_cons, if_pos hbasic,
            ih (b :: t) u (by simp at hlen ⊢; omega) hl hu1 hu2]
          rfl
        · by_cases hhigh : a < 0xDC00
          · rw [decodeUnits_cons, if_neg hbasic, if_pos hhigh]
            dsimp only
            by_cases hblow : 0xDC00 ≤ b ∧ b < 0xE000
            · rw [if_pos hblow]
              cases t with
              | nil =>
                simp only [List.getLast?_singleton, Option.some.injEq] at hl
                omega
              | cons x t2 =>
                rw [List.getLast?_cons_cons] at hl
                rw [ih (x :: t2) u (by simp at hlen ⊢; omega) hl hu1 hu2]
                rfl
            · rw [if_neg hblow]
          · rw [decodeUnits_cons, if_neg hbasic, if_neg hhigh]
  exact aux l.length l u (Nat.le_refl _) hl h1 h2

theorem low_preceded_by_high (cs : List Char) (p : Nat) (u : Nat)
    (hp : (cs.flatMap charUtf16Units)[p]? = some u)
    (hlow : 0xDC00 ≤ u ∧ u < 0xE000) :
    ∃ h2, 1 ≤ p ∧ (cs.flatMap charUtf16Units)[p - 1]? = some h2 ∧
      0xD800 ≤ h2 ∧ h2 < 0xDC00 := by
  induction cs generalizing p with
  | nil => simp at hp
  | cons c rest ih =>
    rcases charUtf16Units_cases c with ⟨hb1, heq, hb3⟩ | ⟨hb1, hb2, heq⟩
    · rw [List.flatMap_cons, heq] at hp ⊢
      simp only [List.cons_append, List.nil_append] at hp ⊢
      cases p with
      | zero =>
        simp only [List.getElem?_cons_zero, Option.some.injEq] at hp
        omega
      | succ j =>
        rw [List.getElem?_cons_succ] at hp
        obtain ⟨h2, hj1, hj2, hj3, hj4⟩ := ih j hp
        obtain ⟨i, rfl⟩ : ∃ i, j = i + 1 := ⟨j - 1, by omega⟩
        refine ⟨h2, by omega, ?_, hj3, hj4⟩
        have : i + 1 + 1 - 1 = i + 1 := by omega
        rw [this, List.getElem?_cons_succ]
        simpa using hj2
    · rw [List.flatMap_cons, heq] at hp ⊢
      simp only [List.cons_append, List.nil_append] at hp ⊢
      cases p with
      | zero =>
        simp only [List.getElem?_cons_zero, Option.some.injEq] at hp
        omega
      | succ j =>
        cases j with
        | zero =>
          refine ⟨0xD800 + (c.val.toNat - 0x10000) / 0x400, by omega, by simp,
            by omega, by omega⟩
        | succ i =>
          rw [List.getElem?_cons_succ, List.getElem?_cons_succ] at hp
          obtain ⟨h2, hj1, hj2, hj3, hj4⟩ := ih i hp
          obtain ⟨i2, rfl⟩ : ∃ i2, i = i2 + 1 := ⟨i - 1, by omega⟩
          refine ⟨h2, by omega, ?_, hj3, hj4⟩
          have : i2 + 1 + 1 + 1 - 1 = i2 + 1 + 1 := by omega
          rw [this, List.getElem?_cons_succ, List.getElem?_cons_succ]
          simpa using hj2

theorem encode_drop_boundary (cs : List Char) (k : Nat)
    (hns : ∀ u, (cs.flatMap charUtf16Units)[k]? = some u →
      ¬(0xDC00 ≤ u ∧ u < 0xE000)) :
    ∃ (cs2 : List Char),
      (cs.flatMap charUtf16Units).drop k = cs2.flatMap charUtf16Units := by
  induction cs generalizing k with
  | nil => exact ⟨[], by simp⟩
  | cons c rest ih =>
    rcases charUtf16Units_cases c with ⟨hb1, heq, hb3⟩ | ⟨hb1, hb2, heq⟩
    · cases k with
      | zero => exact ⟨c :: rest, by simp⟩
      | succ j =>
        rw [List.flatMap_cons, heq] at hns ⊢
        simp only [List.cons_append, List.nil_append] at hns ⊢
        rw [List.drop_succ_cons]
        exact ih j (fun u hu => hns u (by simpa using hu))
    · cases k with
      | zero => exact ⟨c :: rest, by simp⟩
      | succ j =>
        rw [List.flatMap_cons, heq] at hns ⊢
        simp only [List.cons_append, List.nil_append] at hns ⊢
        cases j with
        | zero =>
          exact absurd (hns (0xDC00 + (c.val.toNat - 0x10000) % 0x400) (by simp))
            (by simp only [not_not]; constructor <;> omega)
        | succ i =>
          rw [List.drop_succ_cons, List.drop_succ_cons]
          exact ih i (fun u hu => hns u (by simpa using hu))

/-- C2: `parse_entity` on the text with the surrogate-pair emoji extracts
the emoji for the entity at offset 6 of length 2 and the word `Hello` for
the entity at offset 0 of length 5; and in general extraction slices the
half-open code-unit range from `offset` to `offset + length` of the UTF-16
encoding of the text and decodes it back to text. -/
theorem claim_C2_parse_entity :
    Message.parse_entity helloMsg ⟨"bold", 6, 2⟩ = .ok "😀" ∧
    Message.parse_entity helloMsg ⟨"bold", 0, 5⟩ = .ok "Hello" ∧
    ∀ (m : Message) (e : MessageEntity),
      Message.parse_entity m e =
        match decodeUnits (pySlice (utf16Units m.text) e.offset
            (e.offset + e.length)) with
        | some cs => .ok (String.mk cs)
        | none => .error .unicodeDecodeError := by
  refine ⟨rfl, rfl, ?_⟩
  intro m e
  rw [parse_entity_units]
  have hs : pySlice (utf16Units m.text) e.offset (e.offset + e.length) =
      ((utf16Units m.text).drop e.offset).take e.length := by
    unfold pySlice
    congr 1
    omega
  rw [hs]

/-- C4 fails as stated: an entity whose empty range begins in the interior
of the surrogate pair (offset 7, length 0) makes `parse_entity` return the
empty string instead of failing. -/
theorem claim_C4_counterexample :
    Message.parse_entity helloMsg ⟨"bold", 7, 0⟩ = .ok "" ∧
    splitsSurrogatePair helloMsg.text 7 = true := ⟨rfl, rfl⟩

/-- C4 (amended): for every entity of length at least one whose range begins
or ends in the interior of a surrogate pair of the message text,
`parse_entity` fails with a decode error rather than silently returning
malformed text. -/
theorem claim_C4_amended (m : Message) (e : MessageEntity) (hlen : 1 ≤ e.length)
    (hsplit : splitsSurrogatePair m.text e.offset = true ∨
      splitsSurrogatePair m.text (e.offset + e.length) = true) :
    Message.parse_entity m e = .error .unicodeDecodeError := by
  rw [parse_entity_units]
  suffices h : decodeUnits (((utf16Units m.text).drop e.offset).take e.length)
      = none by rw [h]
  rcases hsplit with hA | hB
  · unfold splitsSurrogatePair at hA
    rcases hg : (utf16Units m.text)[e.offset]? with _ | u
    · rw [hg] at hA; simp at hA
    · rw [hg] at hA
      simp only [decide_eq_true_eq] at hA
      obtain ⟨hofs, hval⟩ := List.getElem?_eq_some.mp hg
      obtain ⟨len2, hlen2⟩ : ∃ n, e.length = n + 1 := ⟨e.length - 1, by omega⟩
      rw [List.drop_eq_getElem_cons hofs, hval, hlen2, List.take_succ_cons]
      exact decodeUnits_head_low u _ hA.1 hA.2
  · unfold splitsSurrogatePair at hB
    rcases hg : (utf16Units m.text)[e.offset + e.length]? with _ | u
    · rw [hg] at hB; simp at hB
    · rw [hg] at hB
      simp only [decide_eq_true_eq] at hB
      obtain ⟨hend, hvend⟩ := List.getElem?_eq_some.mp hg
      obtain ⟨h2, hp1, hp2, hp3, hp4⟩ :=
        low_preceded_by_high m.text.data (e.offset + e.length) u hg hB
      have hslice_len :
          (((utf16Units m.text).drop e.offset).take e.length).length = e.length := by
        simp only [List.length_take, List.length_drop]
        omega
      have hlast :
          (((utf16Units m.text).drop e.offset).take e.length).getLast? = some h2 := by
        rw [List.getLast?_eq_getElem?, hslice_len,
          List.getElem?_take_of_lt (by omega), List.getElem?_drop]
        have harith : e.offset + (e.length - 1) = e.offset + e.length - 1 := by
          omega
        rw [harith]
        exact hp2
      exact decodeUnits_last_high _ h2 hlast hp3 hp4

theorem claim_C4_witness :
    1 ≤ (MessageEntity.mk "bold" 7 1).length ∧
    splitsSurrogatePair helloMsg.text 7 = true ∧
    Message.parse_entity helloMsg ⟨"bold", 7, 1⟩ = .error .unicodeDecodeError :=
  ⟨by decide, rfl,
    claim_C4_amended helloMsg ⟨"bold", 7, 1⟩ (by decide) (Or.inl rfl)⟩

/-- C5: for every entity reaching past the end of the text in UTF-16 code
units but not splitting a surrogate pair at its offset, `parse_entity`
truncates the extraction to the available text (the decoded suffix of the
encoding from `offset`) and returns normally. -/
theorem claim_C5_truncation (m : Message) (e : MessageEntity)
    (hover : utf16Len m.text < e.offset + e.length)
    (hbound : splitsSurrogatePair m.text e.offset = false) :
    ∃ (cs : List Char),
      (utf16Units m.text).drop e.offset = cs.flatMap charUtf16Units ∧
      Message.parse_entity m e = .ok (String.mk cs) := by
  have hns : ∀ u, (m.text.data.flatMap charUtf16Units)[e.offset]? = some u →
      ¬(0xDC00 ≤ u ∧ u < 0xE000) := by
    intro u hu hcontra
    unfold splitsSurrogatePair at hbound
    rw [show (utf16Units m.text)[e.offset]? = some u from hu] at hbound
    simp only [decide_eq_false_iff_not] at hbound
    exact hbound hcontra
  obtain ⟨cs2, hdrop⟩ := encode_drop_boundary m.text.data e.offset hns
  have hdrop2 : (utf16Units m.text).drop e.offset = cs2.flatMap charUtf16Units :=
    hdrop
  refine ⟨cs2, hdrop2, ?_⟩
  rw [parse_entity_units]
  have htake : ((utf16Units m.text).drop e.offset).take e.length =
      (utf16Units m.text).drop e.offset := by
    apply List.take_of_length_le
    simp only [List.length_drop]
    unfold utf16Len at hover
    omega
  rw [htake, hdrop2, decodeUnits_encode]

theorem claim_C5_witness :
    utf16Len helloMsg.text < 6 + 100 ∧
    splitsSurrogatePair helloMsg.text 6 = false ∧
    (∃ (cs : List Char),
      (utf16Units helloMsg.text).drop 6 = cs.flatMap charUtf16Units ∧
      Message.parse_entity helloMsg ⟨"bold", 6, 100⟩ = .ok (String.mk cs)) :=
  ⟨by decide, rfl,
    claim_C5_truncation helloMsg ⟨"bold", 6, 100⟩ (by decide) rfl⟩

theorem pyGetD_eq_lookup (d : PyDict) (k : String) :
    pyGetD d k = (pyLookup d k).getD .vnone := rfl

theorem pyGetDefault_eq_lookup (d : PyDict) (k : String) (v : RVal) :
    pyGetDefault d k v = (pyLookup d k).getD v := rfl

theorem ok_bind {A B : Type} (a : A) (f : A → Except PyErr B) :
    (Except.ok a >>= f) = f a := rfl

theorem pure_eq_ok {A : Type} (a : A) :
    (pure a : Except PyErr A) = .ok a := rfl

theorem sizeOf_pyGetD_lt (fields : PyDict) (k : String) :
    sizeOf (pyGetD fields k) < sizeOf (RVal.vobj fields) := by
  have hlook : ∀ (l : List (String × RVal)) (v : RVal),
      l.lookup k = some v → sizeOf v < sizeOf l := by
    intro l
    induction l with
    | nil => intro v h; simp [List.lookup] at h
    | cons p rest ih =>
      intro v h
      obtain ⟨a, b⟩ := p
      rw [List.lookup] at h
      split at h
      · cases h
        simp only [List.cons.sizeOf_spec, Prod.mk.sizeOf_spec]
        omega
      · have := ih v h
        simp only [List.cons.sizeOf_spec, Prod.mk.sizeOf_spec]
        omega
  rw [pyGetD, RVal.vobj.sizeOf_spec]
  cases hL : List.lookup k fields with
  | none =>
    have hpos : 1 ≤ sizeOf fields := by
      cases fields with
      | nil => simp
      | cons x xs => simp only [List.cons.sizeOf_spec]; omega
    simpa [Option.getD] using by omega
  | some v =>
    have := hlook fields v hL
    simpa [Option.getD] using by omega

/-- `to_dict` with the two self-referential segments in `optSeg` normal
form. -/
theorem to_dict_eq (core : MessageCore) (reply pinned : Option Message) :
    Message.to_dict (Message.mk core reply pinned) =
    [("message_id", .vint core.message_id)]
    ++ [("date", Message._totimestamp (some core.date))]
    ++ emitIf core.chat.isSome "chat" (wireOpt Chat.to_dict core.chat)
    ++ emitIf core.forward_from.isSome "forward_from"
        (wireOpt User.to_dict core.forward_from)
    ++ emitIf core.forward_from_chat.isSome "forward_from_chat"
        (wireOpt Chat.to_dict core.forward_from_chat)
    ++ emitIf core.forward_date.isSome "forward_date"
        (Message._totimestamp core.forward_date)
    ++ optSeg "reply_to_message" (reply.map Message.to_dict)
    ++ emitIf core.edit_date.isSome "edit_date"
        (Message._totimestamp core.edit_date)
    ++ emitIf (core.text != "") "text" (.vstr core.text)
    ++ emitIf (!core.entities.isEmpty) "entities"
        (.vlist (core.entities.map (fun e => .vobj (MessageEntity.to_dict e))))
    ++ emitIf core.audio.isSome "audio" (wireOpt Audio.to_dict core.audio)
    ++ emitIf core.document.isSome "document" (wireOpt Document.to_dict core.document)
    ++ emitIf (optListTruthy core.photo) "photo"
        (.vlist ((core.photo.getD []).map (fun p => .vobj (PhotoSize.to_dict p))))
    ++ emitIf core.sticker.isSome "sticker" (wireOpt Sticker.to_dict core.sticker)
    ++ emitIf core.video.isSome "video" (wireOpt Video.to_dict core.video)
    ++ emitIf core.voice.isSome "voice" (wireOpt Voice.to_dict core.voice)
    ++ emitIf (core.caption != "") "caption" (.vstr core.caption)
    ++ emitIf core.contact.isSome "contact" (wireOpt Contact.to_dict core.contact)
    ++ emitIf core.location.isSome "location" (wireOpt Location.to_dict core.location)
    ++ emitIf core.venue.isSome "venue" (wireOpt Venue.to_dict core.venue)
    ++ emitIf core.new_chat_member.isSome "new_chat_member"
        (wireOpt User.to_dict core.new_chat_member)
    ++ emitIf core.left_chat_member.isSome "left_chat_member"
        (wireOpt User.to_dict core.left_chat_member)
    ++ emitIf (core.new_chat_title != "") "new_chat_title" (.vstr core.new_chat_title)
    ++ emitIf (optListTruthy core.new_chat_photo) "new_chat_photo"
        (.vlist ((core.new_chat_photo.getD []).map (fun p => .vobj (PhotoSize.to_dict p))))
    ++ [("delete_chat_photo", .vbool core.delete_chat_photo)]
    ++ [("group_chat_created", .vbool core.group_chat_created)]
    ++ [("supergroup_chat_created", .vbool core.supergroup_chat_created)]
    ++ [("migrate_to_chat_id", .vint core.migrate_to_chat_id)]
    ++ [("migrate_from_chat_id", .vint core.migrate_from_chat_id)]
    ++ [("channel_chat_created", .vbool core.channel_chat_created)]
    ++ optSeg "pinned_message" (pinned.map Message.to_dict)
    ++ [("from", wireOpt User.to_dict core.from_user)] := by
  cases reply <;> cases pinned <;> rfl

theorem lookup_message_id (core : MessageCore) (reply pinned : Option Message) :
    pyLookup (Message.to_dict (Message.mk core reply pinned)) "message_id" =
      some (.vint core.message_id) := by
  rw [to_dict_eq]
  simp only [List.append_assoc, List.cons_append, List.nil_append]
  simp [pyLookup_cons, pyLookup_emitIf_ne, pyLookup_emitIf_eq,
    pyLookup_optSeg_ne, pyLookup_optSeg_eq, pyLookup_nil, Message._totimestamp]

theorem lookup_date (core : MessageCore) (reply pinned : Option Message) :
    pyLookup (Message.to_dict (Message.mk core reply pinned)) "date" =
      some (.vint core.date) := by
  rw [to_dict_eq]
  simp only [List.append_assoc, List.cons_append, List.nil_append]
  simp [pyLookup_cons, pyLookup_emitIf_ne, pyLookup_emitIf_eq,
    pyLookup_optSeg_ne, pyLookup_optSeg_eq, pyLookup_nil, Message._totimestamp]

theorem lookup_delete_chat_photo (core : MessageCore) (reply pinned : Option Message) :
    pyLookup (Message.to_dict (Message.mk core reply pinned)) "delete_chat_photo" =
      some (.vbool core.delete_chat_photo) := by
  rw [to_dict_eq]
  simp only [List.append_assoc, List.cons_append, List.nil_append]
  simp [pyLookup_cons, pyLookup_emitIf_ne, pyLookup_emitIf_eq,
    pyLookup_optSeg_ne, pyLookup_optSeg_eq, pyLookup_nil, Message._totimestamp]

theorem lookup_group_chat_created (core : MessageCore) (reply pinned : Option Message) :
    pyLookup (Message.to_dict (Message.mk core reply pinned)) "group_chat_created" =
      some (.vbool core.group_chat_created) := by
  rw [to_dict_eq]
  simp only [List.append_assoc, List.cons_append, List.nil_append]
  simp [pyLookup_cons, pyLookup_emitIf_ne, pyLookup_emitIf_eq,
    pyLookup_optSeg_ne, pyLookup_optSeg_eq, pyLookup_nil, Message._totimestamp]

theorem lookup_supergroup_chat_created (core : MessageCore) (reply pinned : Option Message) :
    pyLookup (Message.to_dict (Message.mk core reply pinned)) "supergroup_chat_created" =
      some (.vbool core.supergroup_chat_created) := by
  rw [to_dict_eq]
  simp only [List.append_assoc, List.cons_append, List.nil_append]
  simp [pyLookup_cons, pyLookup_emitIf_ne, pyLookup_emitIf_eq,
    pyLookup_optSeg_ne, pyLookup_optSeg_eq, pyLookup_nil, Message._totimestamp]

theorem lookup_migrate_to_chat_id (core : MessageCore) (reply pinned : Option Message) :
    pyLookup (Message.to_dict (Message.mk core reply pinned)) "migrate_to_chat_id" =
      some (.vint core.migrate_to_chat_id) := by
  rw [to_dict_eq]
  simp only [List.append_assoc, List.cons_append, List.nil_append]
  simp [pyLookup_cons, pyLookup_emitIf_ne, pyLookup_emitIf_eq,
    pyLookup_optSeg_ne, pyLookup_optSeg_eq, pyLookup_nil, Message._totimestamp]

theorem lookup_migrate_from_chat_id (core : MessageCore) (reply pinned : Option Message) :
    pyLookup (Message.to_dict (Message.mk core reply pinned)) "migrate_from_chat_id" =
      some (.vint core.migrate_from_chat_id) := by
  rw [to_dict_eq]
  simp only [List.append_assoc, List.cons_append, List.nil_append]
  simp [pyLookup_cons, pyLookup_emitIf_ne, pyLookup_emitIf_eq,
    pyLookup_optSeg_ne, pyLookup_optSeg_eq, pyLookup_nil, Message._totimestamp]

theorem lookup_channel_chat_created (core : MessageCore) (reply pinned : Option Message) :
    pyLookup (Message.to_dict (Message.mk core reply pinned)) "channel_chat_created" =
      some (.vbool core.channel_chat_created) := by
  rw [to_dict_eq]
  simp only [List.append_assoc, List.cons_append, List.nil_append]
  simp [pyLookup_cons, pyLookup_emitIf_ne, pyLookup_emitIf_eq,
    pyLookup_optSeg_ne, pyLookup_optSeg_eq, pyLookup_nil, Message._totimestamp]

theorem lookup_from_key (core : MessageCore) (reply pinned : Option Message) :
    pyLookup (Message.to_dict (Message.mk core reply pinned)) "from" =
      some (wireOpt User.to_dict core.from_user) := by
  rw [to_dict_eq]
  simp only [List.append_assoc, List.cons_append, List.nil_append]
  simp [pyLookup_cons, pyLookup_emitIf_ne, pyLookup_emitIf_eq,
    pyLookup_optSeg_ne, pyLookup_optSeg_eq, pyLookup_nil, Message._totimestamp]

theorem lookup_bot_key (core : MessageCore) (reply pinned : Option Message) :
    pyLookup (Message.to_dict (Message.mk core reply pinned)) "bot" =
      (none : Option RVal) := by
  rw [to_dict_eq]
  simp only [List.append_assoc, List.cons_append, List.nil_append]
  simp [pyLookup_cons, pyLookup_emitIf_ne, pyLookup_emitIf_eq,
    pyLookup_optSeg_ne, pyLookup_optSeg_eq, pyLookup_nil, Message._totimestamp]

theorem lookup_chat (core : MessageCore) (reply pinned : Option Message) :
    pyLookup (Message.to_dict (Message.mk core reply pinned)) "chat" =
      (if core.chat.isSome then some (wireOpt Chat.to_dict core.chat) else none) := by
  rw [to_dict_eq]
  simp only [List.append_assoc, List.cons_append, List.nil_append]
  simp [pyLookup_cons, pyLookup_emitIf_ne, pyLookup_emitIf_eq,
    pyLookup_optSeg_ne, pyLookup_optSeg_eq, pyLookup_nil, Message._totimestamp]

theorem lookup_forward_from (core : MessageCore) (reply pinned : Option Message) :
    pyLookup (Message.to_dict (Message.mk core reply pinned)) "forward_from" =
      (if core.forward_from.isSome then some (wireOpt User.to_dict core.forward_from) else none) := by
  rw [to_dict_eq]
  simp only [List.append_assoc, List.cons_append, List.nil_append]
  simp [pyLookup_cons, pyLookup_emitIf_ne, pyLookup_emitIf_eq,
    pyLookup_optSeg_ne, pyLookup_optSeg_eq, pyLookup_nil, Message._totimestamp]

theorem lookup_forward_from_chat (core : MessageCore) (reply pinned : Option Message) :
    pyLookup (Message.to_dict (Message.mk core reply pinned)) "forward_from_chat" =
      (if core.forward_from_chat.isSome then some (wireOpt Chat.to_dict core.forward_from_chat) else none) := by
  rw [to_dict_eq]
  simp only [List.append_assoc, List.cons_append, List.nil_append]
  simp [pyLookup_cons, pyLookup_emitIf_ne, pyLookup_emitIf_eq,
    pyLookup_optSeg_ne, pyLookup_optSeg_eq, pyLookup_nil, Message._totimestamp]

theorem lookup_forward_date (core : MessageCore) (reply pinned : Option Message) :
    pyLookup (Message.to_dict (Message.mk core reply pinned)) "forward_date" =
      (if core.forward_date.isSome then some (Message._totimestamp core.forward_date) else none) := by
  rw [to_dict_eq]
  simp only [List.append_assoc, List.cons_append, List.nil_append]
  simp [pyLookup_cons, pyLookup_emitIf_ne, pyLookup_emitIf_eq,
    pyLookup_optSeg_ne, pyLookup_optSeg_eq, pyLookup_nil, Message._totimestamp]

theorem lookup_edit_date (core : MessageCore) (reply pinned : Option Message) :
    pyLookup (Message.to_dict (Message.mk core reply pinned)) "edit_date" =
      (if core.edit_date.isSome then some (Message._totimestamp core.edit_date) else none) := by
  rw [to_dict_eq]
  simp only [List.append_assoc, List.cons_append, List.nil_append]
  simp [pyLookup_cons, pyLookup_emitIf_ne, pyLookup_emitIf_eq,
    pyLookup_optSeg_ne, pyLookup_optSeg_eq, pyLookup_nil, Message._totimestamp]

theorem lookup_text (core : MessageCore) (reply pinned : Option Message) :
    pyLookup (Message.to_dict (Message.mk core reply pinned)) "text" =
      (if (core.text != "") = true then some (RVal.vstr core.text) else none) := by
  rw [to_dict_eq]
  simp only [List.append_assoc, List.cons_append, List.nil_append]
  simp [pyLookup_cons, pyLookup_emitIf_ne, pyLookup_emitIf_eq,
    pyLookup_optSeg_ne, pyLookup_optSeg_eq, pyLookup_nil, Message._totimestamp]

theorem lookup_entities (core : MessageCore) (reply pinned : Option Message) :
    pyLookup (Message.to_dict (Message.mk core reply pinned)) "entities" =
      (if (!core.entities.isEmpty) = true then some (RVal.vlist (core.entities.map (fun e => .vobj (MessageEntity.to_dict e)))) else none) := by
  rw [to_dict_eq]
  simp only [List.append_assoc, List.cons_append, List.nil_append]
  simp [pyLookup_cons, pyLookup_emitIf_ne, pyLookup_emitIf_eq,
    pyLookup_optSeg_ne, pyLookup_optSeg_eq, pyLookup_nil, Message._totimestamp]

theorem lookup_audio (core : MessageCore) (reply pinned : Option Message) :
    pyLookup (Message.to_dict (Message.mk core reply pinned)) "audio" =
      (if core.audio.isSome then some (wireOpt Audio.to_dict core.audio) else none) := by
  rw [to_dict_eq]
  simp only [List.append_assoc, List.cons_append, List.nil_append]
  simp [pyLookup_cons, pyLookup_emitIf_ne, pyLookup_emitIf_eq,
    pyLookup_optSeg_ne, pyLookup_optSeg_eq, pyLookup_nil, Message._totimestamp]

theorem lookup_document (core : MessageCore) (reply pinned : Option Message) :
    pyLookup (Message.to_dict (Message.mk core reply pinned)) "document" =
      (if core.document.isSome then some (wireOpt Document.to_dict core.document) else none) := by
  rw [to_dict_eq]
  simp only [List.append_assoc, List.cons_append, List.nil_append]
  simp [pyLookup_cons, pyLookup_emitIf_ne, pyLookup_emitIf_eq,
    pyLookup_optSeg_ne, pyLookup_optSeg_eq, pyLookup_nil, Message._totimestamp]

theorem lookup_photo (core : MessageCore) (reply pinned : Option Message) :
    pyLookup (Message.to_dict (Message.mk core reply pinned)) "photo" =
      (if optListTruthy core.photo then some (RVal.vlist ((core.photo.getD []).map (fun p => .vobj (PhotoSize.to_dict p)))) else none) := by
  rw [to_dict_eq]
  simp only [List.append_assoc, List.cons_append, List.nil_append]
  simp [pyLookup_cons, pyLookup_emitIf_ne, pyLookup_emitIf_eq,
    pyLookup_optSeg_ne, pyLookup_optSeg_eq, pyLookup_nil, Message._totimestamp]

theorem lookup_sticker (core : MessageCore) (reply pinned : Option Message) :
    pyLookup (Message.to_dict (Message.mk core reply pinned)) "sticker" =
      (if core.sticker.isSome then some (wireOpt Sticker.to_dict core.sticker) else none) := by
  rw [to_dict_eq]
  simp only [List.append_assoc, List.cons_append, List.nil_append]
  simp [pyLookup_cons, pyLookup_emitIf_ne, pyLookup_emitIf_eq,
    pyLookup_optSeg_ne, pyLookup_optSeg_eq, pyLookup_nil, Message._totimestamp]

theorem lookup_video (core : MessageCore) (reply pinned : Option Message) :
    pyLookup (Message.to_dict (Message.mk core reply pinned)) "video" =
      (if core.video.isSome then some (wireOpt Video.to_dict core.video) else none) := by
  rw [to_dict_eq]
  simp only [List.append_assoc, List.cons_append, List.nil_append]
  simp [pyLookup_cons, pyLookup_emitIf_ne, pyLookup_emitIf_eq,
    pyLookup_optSeg_ne, pyLookup_optSeg_eq, pyLookup_nil, Message._totimestamp]

theorem lookup_voice (core : MessageCore) (reply pinned : Option Message) :
    pyLookup (Message.to_dict (Message.mk core reply pinned)) "voice" =
      (if core.voice.isSome then some (wireOpt Voice.to_dict core.voice) else none) := by
  rw [to_dict_eq]
  simp only [List.append_assoc, List.cons_append, List.nil_append]
  simp [pyLookup_cons, pyLookup_emitIf_ne, pyLookup_emitIf_eq,
    pyLookup_optSeg_ne, pyLookup_optSeg_eq, pyLookup_nil, Message._totimestamp]

theorem lookup_caption (core : MessageCore) (reply pinned : Option Message) :
    pyLookup (Message.to_dict (Message.mk core reply pinned)) "caption" =
      (if (core.caption != "") = true then some (RVal.vstr core.caption) else none) := by
  rw [to_dict_eq]
  simp only [List.append_assoc, List.cons_append, List.nil_append]
  simp [pyLookup_cons, pyLookup_emitIf_ne, pyLookup_emitIf_eq,
    pyLookup_optSeg_ne, pyLookup_optSeg_eq, pyLookup_nil, Message._totimestamp]

theorem lookup_contact (core : MessageCore) (reply pinned : Option Message) :
    pyLookup (Message.to_dict (Message.mk core reply pinned)) "contact" =
      (if core.contact.isSome then some (wireOpt Contact.to_dict core.contact) else none) := by
  rw [to_dict_eq]
  simp only [List.append_assoc, List.cons_append, List.nil_append]
  simp [pyLookup_cons, pyLookup_emitIf_ne, pyLookup_emitIf_eq,
    pyLookup_optSeg_ne, pyLookup_optSeg_eq, pyLookup_nil, Message._totimestamp]

theorem lookup_location (core : MessageCore) (reply pinned : Option Message) :
    pyLookup (Message.to_dict (Message.mk core reply pinned)) "location" =
      (if core.location.isSome then some (wireOpt Location.to_dict core.location) else none) := by
  rw [to_dict_eq]
  simp only [List.append_assoc, List.cons_append, List.nil_append]
  simp [pyLookup_cons, pyLookup_emitIf_ne, pyLookup_emitIf_eq,
    pyLookup_optSeg_ne, pyLookup_optSeg_eq, pyLookup_nil, Message._totimestamp]

theorem lookup_venue (core : MessageCore) (reply pinned : Option Message) :
    pyLookup (Message.to_dict (Message.mk core reply pinned)) "venue" =
      (if core.venue.isSome then some (wireOpt Venue.to_dict core.venue) else none) := by
  rw [to_dict_eq]
  simp only [List.append_assoc, List.cons_append, List.nil_append]
  simp [pyLookup_cons, pyLookup_emitIf_ne, pyLookup_emitIf_eq,
    pyLookup_optSeg_ne, pyLookup_optSeg_eq, pyLookup_nil, Message._totimestamp]

theorem lookup_new_chat_member (core : MessageCore) (reply pinned : Option Message) :
    pyLookup (Message.to_dict (Message.mk core reply pinned)) "new_chat_member" =
      (if core.new_chat_member.isSome then some (wireOpt User.to_dict core.new_chat_member) else none) := by
  rw [to_dict_eq]
  simp only [List.append_assoc, List.cons_append, List.nil_append]
  simp [pyLookup_cons, pyLookup_emitIf_ne, pyLookup_emitIf_eq,
    pyLookup_optSeg_ne, pyLookup_optSeg_eq, pyLookup_nil, Message._totimestamp]

theorem lookup_left_chat_member (core : MessageCore) (reply pinned : Option Message) :
    pyLookup (Message.to_dict (Message.mk core reply pinned)) "left_chat_member" =
      (if core.left_chat_member.isSome then some (wireOpt User.to_dict core.left_chat_member) else none) := by
  rw [to_dict_eq]
  simp only [List.append_assoc, List.cons_append, List.nil_append]
  simp [pyLookup_cons, pyLookup_emitIf_ne, pyLookup_emitIf_eq,
    pyLookup_optSeg_ne, pyLookup_optSeg_eq, pyLookup_nil, Message._totimestamp]

theorem lookup_new_chat_title (core : MessageCore) (reply pinned : Option Message) :
    pyLookup (Message.to_dict (Message.mk core reply pinned)) "new_chat_title" =
      (if (core.new_chat_title != "") = true then some (RVal.vstr core.new_chat_title) else none) := by
  rw [to_dict_eq]
  simp only [List.append_assoc, List.cons_append, List.nil_append]
  simp [pyLookup_cons, pyLookup_emitIf_ne, pyLookup_emitIf_eq,
    pyLookup_optSeg_ne, pyLookup_optSeg_eq, pyLookup_nil, Message._totimestamp]

theorem lookup_new_chat_photo (core : MessageCore) (reply pinned : Option Message) :
    pyLookup (Message.to_dict (Message.mk core reply pinned)) "new_chat_photo" =
      (if optListTruthy core.new_chat_photo then some (RVal.vlist ((core.new_chat_photo.getD []).map (fun p => .vobj (PhotoSize.to_dict p)))) else none) := by
  rw [to_dict_eq]
  simp only [List.append_assoc, List.cons_append, List.nil_append]
  simp [pyLookup_cons, pyLookup_emitIf_ne, pyLookup_emitIf_eq,
    pyLookup_optSeg_ne, pyLookup_optSeg_eq, pyLookup_nil, Message._totimestamp]

theorem lookup_reply (core : MessageCore) (reply pinned : Option Message) :
    pyLookup (Message.to_dict (Message.mk core reply pinned)) "reply_to_message" =
      reply.map (fun r => RVal.vobj (Message.to_dict r)) := by
  cases reply <;>
    (rw [to_dict_eq]
     simp only [List.append_assoc, List.cons_append, List.nil_append]
     simp [pyLookup_cons, pyLookup_emitIf_ne, pyLookup_emitIf_eq,
       pyLookup_optSeg_ne, pyLookup_optSeg_eq, pyLookup_nil, Message._totimestamp])

theorem lookup_pinned (core : MessageCore) (reply pinned : Option Message) :
    pyLookup (Message.to_dict (Message.mk core reply pinned)) "pinned_message" =
      pinned.map (fun p => RVal.vobj (Message.to_dict p)) := by
  cases pinned <;>
    (rw [to_dict_eq]
     simp only [List.append_assoc, List.cons_append, List.nil_append]
     simp [pyLookup_cons, pyLookup_emitIf_ne, pyLookup_emitIf_eq,
       pyLookup_optSeg_ne, pyLookup_optSeg_eq, pyLookup_nil, Message._totimestamp])


theorem photo_wire_item (p : PhotoSize) (b : Option Bot) :
    PhotoSize.from_wire_item b (.vobj (PhotoSize.to_dict p)) = .ok p := by
  cases p
  rfl

theorem entity_wire_item (e : MessageEntity) (b : Option Bot) :
    MessageEntity.from_wire_item b (.vobj (MessageEntity.to_dict e)) = .ok e := by
  cases e with
  | mk t o l =>
    simp [MessageEntity.from_wire_item, MessageEntity.de_json,
      MessageEntity.to_dict, pyTruthy, pyLookup, List.lookup, Bind.bind,
      Except.bind, pure_eq_ok, Int.toNat_natCast]

theorem mapM_photo_wire (ps : List PhotoSize) (b : Option Bot) :
    (ps.map (fun p => RVal.vobj (PhotoSize.to_dict p))).mapM'
      (PhotoSize.from_wire_item b) = .ok ps := by
  induction ps with
  | nil => rfl
  | cons p rest ih =>
    rw [List.map_cons, List.mapM'_cons, photo_wire_item, ih]
    rfl

theorem mapM_entity_wire (es : List MessageEntity) (b : Option Bot) :
    (es.map (fun e => RVal.vobj (MessageEntity.to_dict e))).mapM'
      (MessageEntity.from_wire_item b) = .ok es := by
  induction es with
  | nil => rfl
  | cons e rest ih =>
    rw [List.map_cons, List.mapM'_cons, entity_wire_item, ih]
    rfl

theorem de_list_photo_wire (ps : List PhotoSize) (b : Option Bot) :
    PhotoSize.de_list (.vlist (ps.map (fun p => RVal.vobj (PhotoSize.to_dict p)))) b
      = .ok ps := by
  cases ps with
  | nil => rfl
  | cons p rest =>
    show ((p :: rest).map (fun p => RVal.vobj (PhotoSize.to_dict p))).mapM
      (PhotoSize.from_wire_item b) = .ok (p :: rest)
    rw [← List.mapM'_eq_mapM]
    exact mapM_photo_wire (p :: rest) b

theorem de_list_entity_wire (es : List MessageEntity) (b : Option Bot) :
    MessageEntity.de_list
      (.vlist (es.map (fun e => RVal.vobj (MessageEntity.to_dict e)))) b
      = .ok es := by
  cases es with
  | nil => rfl
  | cons e rest =>
    show ((e :: rest).map (fun e => RVal.vobj (MessageEntity.to_dict e))).mapM
      (MessageEntity.from_wire_item b) = .ok (e :: rest)
    rw [← List.mapM'_eq_mapM]
    exact mapM_entity_wire (e :: rest) b

theorem rb_from (core : MessageCore) (reply pinned : Option Message)
    (b : Option Bot) :
    User.de_json (pyGetD (Message.to_dict (Message.mk core reply pinned)) "from") b = .ok core.from_user := by
  rw [pyGetD_eq_lookup, lookup_from_key]
  cases core.from_user <;> rfl

theorem rb_chat (core : MessageCore) (reply pinned : Option Message)
    (b : Option Bot) :
    Chat.de_json (pyGetD (Message.to_dict (Message.mk core reply pinned)) "chat") b = .ok core.chat := by
  rw [pyGetD_eq_lookup, lookup_chat]
  cases core.chat <;> rfl

theorem rb_forward_from (core : MessageCore) (reply pinned : Option Message)
    (b : Option Bot) :
    User.de_json (pyGetD (Message.to_dict (Message.mk core reply pinned)) "forward_from") b = .ok core.forward_from := by
  rw [pyGetD_eq_lookup, lookup_forward_from]
  cases core.forward_from <;> rfl

theorem rb_forward_from_chat (core : MessageCore) (reply pinned : Option Message)
    (b : Option Bot) :
    Chat.de_json (pyGetD (Message.to_dict (Message.mk core reply pinned)) "forward_from_chat") b = .ok core.forward_from_chat := by
  rw [pyGetD_eq_lookup, lookup_forward_from_chat]
  cases core.forward_from_chat <;> rfl

theorem rb_audio (core : MessageCore) (reply pinned : Option Message)
    (b : Option Bot) :
    Audio.de_json (pyGetD (Message.to_dict (Message.mk core reply pinned)) "audio") b = .ok core.audio := by
  rw [pyGetD_eq_lookup, lookup_audio]
  cases core.audio <;> rfl

theorem rb_document (core : MessageCore) (reply pinned : Option Message)
    (b : Option Bot) :
    Document.de_json (pyGetD (Message.to_dict (Message.mk core reply pinned)) "document") b = .ok core.document := by
  rw [pyGetD_eq_lookup, lookup_document]
  cases core.document <;> rfl

theorem rb_sticker (core : MessageCore) (reply pinned : Option Message)
    (b : Option Bot) :
    Sticker.de_json (pyGetD (Message.to_dict (Message.mk core reply pinned)) "sticker") b = .ok core.sticker := by
  rw [pyGetD_eq_lookup, lookup_sticker]
  cases core.sticker <;> rfl

theorem rb_video (core : MessageCore) (reply pinned : Option Message)
    (b : Option Bot) :
    Video.de_json (pyGetD (Message.to_dict (Message.mk core reply pinned)) "video") b = .ok core.video := by
  rw [pyGetD_eq_lookup, lookup_video]
  cases core.video <;> rfl

theorem rb_voice (core : MessageCore) (reply pinned : Option Message)
    (b : Option Bot) :
    Voice.de_json (pyGetD (Message.to_dict (Message.mk core reply pinned)) "voice") b = .ok core.voice := by
  rw [pyGetD_eq_lookup, lookup_voice]
  cases core.voice <;> rfl

theorem rb_contact (core : MessageCore) (reply pinned : Option Message)
    (b : Option Bot) :
    Contact.de_json (pyGetD (Message.to_dict (Message.mk core reply pinned)) "contact") b = .ok core.contact := by
  rw [pyGetD_eq_lookup, lookup_contact]
  cases core.contact <;> rfl

theorem rb_location (core : MessageCore) (reply pinned : Option Message)
    (b : Option Bot) :
    Location.de_json (pyGetD (Message.to_dict (Message.mk core reply pinned)) "location") b = .ok core.location := by
  rw [pyGetD_eq_lookup, lookup_location]
  cases core.location <;> rfl

theorem rb_venue (core : MessageCore) (reply pinned : Option Message)
    (b : Option Bot) :
    Venue.de_json (pyGetD (Message.to_dict (Message.mk core reply pinned)) "venue") b = .ok core.venue := by
  rw [pyGetD_eq_lookup, lookup_venue]
  cases core.venue <;> rfl

theorem rb_new_chat_member (core : MessageCore) (reply pinned : Option Message)
    (b : Option Bot) :
    User.de_json (pyGetD (Message.to_dict (Message.mk core reply pinned)) "new_chat_member") b = .ok core.new_chat_member := by
  rw [pyGetD_eq_lookup, lookup_new_chat_member]
  cases core.new_chat_member <;> rfl

theorem rb_left_chat_member (core : MessageCore) (reply pinned : Option Message)
    (b : Option Bot) :
    User.de_json (pyGetD (Message.to_dict (Message.mk core reply pinned)) "left_chat_member") b = .ok core.left_chat_member := by
  rw [pyGetD_eq_lookup, lookup_left_chat_member]
  cases core.left_chat_member <;> rfl

theorem rb_forward_date (core : MessageCore) (reply pinned : Option Message)
    (hne : core.forward_date ≠ some 0) :
    Message._fromtimestamp (pyGetD (Message.to_dict (Message.mk core reply pinned)) "forward_date") = .ok core.forward_date := by
  rw [pyGetD_eq_lookup, lookup_forward_date]
  rcases hf : core.forward_date with _ | t
  · rfl
  · rw [hf] at hne
    have ht : t ≠ 0 := by simpa using hne
    simp [Message._fromtimestamp, Message._totimestamp, pyTruthy, ht]

theorem rb_edit_date (core : MessageCore) (reply pinned : Option Message)
    (hne : core.edit_date ≠ some 0) :
    Message._fromtimestamp (pyGetD (Message.to_dict (Message.mk core reply pinned)) "edit_date") = .ok core.edit_date := by
  rw [pyGetD_eq_lookup, lookup_edit_date]
  rcases hf : core.edit_date with _ | t
  · rfl
  · rw [hf] at hne
    have ht : t ≠ 0 := by simpa using hne
    simp [Message._fromtimestamp, Message._totimestamp, pyTruthy, ht]

theorem rb_text (core : MessageCore) (reply pinned : Option Message) :
    asStr (pyGetDefault (Message.to_dict (Message.mk core reply pinned)) "text" (.vstr "")) = .ok core.text := by
  rw [pyGetDefault_eq_lookup, lookup_text]
  by_cases h : core.text = ""
  · simp [h, asStr]
  · simp [h, asStr]

theorem rb_caption (core : MessageCore) (reply pinned : Option Message) :
    asStr (pyGetDefault (Message.to_dict (Message.mk core reply pinned)) "caption" (.vstr "")) = .ok core.caption := by
  rw [pyGetDefault_eq_lookup, lookup_caption]
  by_cases h : core.caption = ""
  · simp [h, asStr]
  · simp [h, asStr]

theorem rb_new_chat_title (core : MessageCore) (reply pinned : Option Message) :
    asStr (pyGetDefault (Message.to_dict (Message.mk core reply pinned)) "new_chat_title" (.vstr "")) = .ok core.new_chat_title := by
  rw [pyGetDefault_eq_lookup, lookup_new_chat_title]
  by_cases h : core.new_chat_title = ""
  · simp [h, asStr]
  · simp [h, asStr]

theorem rb_delete_chat_photo (core : MessageCore) (reply pinned : Option Message) :
    pyTruthy (pyGetDefault (Message.to_dict (Message.mk core reply pinned)) "delete_chat_photo" (.vbool false)) = core.delete_chat_photo := by
  rw [pyGetDefault_eq_lookup, lookup_delete_chat_photo]
  rfl

theorem rb_group_chat_created (core : MessageCore) (reply pinned : Option Message) :
    pyTruthy (pyGetDefault (Message.to_dict (Message.mk core reply pinned)) "group_chat_created" (.vbool false)) = core.group_chat_created := by
  rw [pyGetDefault_eq_lookup, lookup_group_chat_created]
  rfl

theorem rb_supergroup_chat_created (core : MessageCore) (reply pinned : Option Message) :
    pyTruthy (pyGetDefault (Message.to_dict (Message.mk core reply pinned)) "supergroup_chat_created" (.vbool false)) = core.supergroup_chat_created := by
  rw [pyGetDefault_eq_lookup, lookup_supergroup_chat_created]
  rfl

theorem rb_channel_chat_created (core : MessageCore) (reply pinned : Option Message) :
    pyTruthy (pyGetDefault (Message.to_dict (Message.mk core reply pinned)) "channel_chat_created" (.vbool false)) = core.channel_chat_created := by
  rw [pyGetDefault_eq_lookup, lookup_channel_chat_created]
  rfl

theorem rb_migrate_to_chat_id (core : MessageCore) (reply pinned : Option Message) :
    pyInt (pyGetDefault (Message.to_dict (Message.mk core reply pinned)) "migrate_to_chat_id" (.vint 0)) = .ok core.migrate_to_chat_id := by
  rw [pyGetDefault_eq_lookup, lookup_migrate_to_chat_id]
  rfl

theorem rb_migrate_from_chat_id (core : MessageCore) (reply pinned : Option Message) :
    pyInt (pyGetDefault (Message.to_dict (Message.mk core reply pinned)) "migrate_from_chat_id" (.vint 0)) = .ok core.migrate_from_chat_id := by
  rw [pyGetDefault_eq_lookup, lookup_migrate_from_chat_id]
  rfl

theorem rb_entities (core : MessageCore) (reply pinned : Option Message)
    (b : Option Bot) :
    MessageEntity.de_list (pyGetD (Message.to_dict (Message.mk core reply pinned)) "entities") b = .ok core.entities := by
  rw [pyGetD_eq_lookup, lookup_entities]
  cases he : core.entities with
  | nil => rfl
  | cons e rest =>
    show MessageEntity.de_list
      (.vlist ((e :: rest).map (fun e => RVal.vobj (MessageEntity.to_dict e)))) b
      = .ok (e :: rest)
    exact de_list_entity_wire (e :: rest) b

theorem rb_photo (core : MessageCore) (reply pinned : Option Message)
    (b : Option Bot) (ps : List PhotoSize) (h : core.photo = some ps) :
    PhotoSize.de_list (pyGetD (Message.to_dict (Message.mk core reply pinned)) "photo") b = .ok ps := by
  rw [pyGetD_eq_lookup, lookup_photo, h]
  cases ps with
  | nil => rfl
  | cons p rest =>
    show PhotoSize.de_list
      (.vlist ((p :: rest).map (fun p => RVal.vobj (PhotoSize.to_dict p)))) b
      = .ok (p :: rest)
    exact de_list_photo_wire (p :: rest) b

theorem rb_new_chat_photo (core : MessageCore) (reply pinned : Option Message)
    (b : Option Bot) (ps : List PhotoSize) (h : core.new_chat_photo = some ps) :
    PhotoSize.de_list (pyGetD (Message.to_dict (Message.mk core reply pinned)) "new_chat_photo") b = .ok ps := by
  rw [pyGetD_eq_lookup, lookup_new_chat_photo, h]
  cases ps with
  | nil => rfl
  | cons p rest =>
    show PhotoSize.de_list
      (.vlist ((p :: rest).map (fun p => RVal.vobj (PhotoSize.to_dict p)))) b
      = .ok (p :: rest)
    exact de_list_photo_wire (p :: rest) b

theorem readback_msg_opt (o : Option Message) (b : Option Bot)
    (hIH : ∀ r, o = some r →
      Message.de_json (.vobj (Message.to_dict r)) b = .ok (some r)) :
    Message.de_json ((o.map (fun r => RVal.vobj (Message.to_dict r))).getD .vnone) b
      = .ok o := by
  cases o with
  | none =>
    rw [Message.de_json.eq_def]
    rfl
  | some r => exact hIH r rfl

theorem pyFromTimestamp_vint (n : Int) : pyFromTimestamp (.vint n) = .ok n := rfl

theorem pyInt_vint (n : Int) : pyInt (.vint n) = .ok n := rfl

theorem de_json_ok_wireOk (W : RVal) (bot : Option Bot) (m : Message)
    (h : Message.de_json W bot = .ok (some m)) : WireOk bot m := by
  have H : ∀ (n : Nat) (W : RVal) (m : Message), sizeOf W < n →
      Message.de_json W bot = .ok (some m) → WireOk bot m := by
    intro n
    induction n with
    | zero => intro W m hlt _; omega
    | succ k ih =>
      intro W m hlt h
      have htr : pyTruthy W = true := by
        cases hW : pyTruthy W
        · rw [Message.de_json.eq_def, hW] at h
          simp at h
        · rfl
      have hvobj : ∃ fields, W = RVal.vobj fields := by
        cases W
        case vobj fields => exact ⟨fields, rfl⟩
        all_goals
          rw [Message.de_json.eq_def, htr] at h
        all_goals simp at h
      obtain ⟨fields, rfl⟩ := hvobj
      have hne : fields.isEmpty = false := by
        cases fields with
        | nil => simp [pyTruthy] at htr
        | cons a l => rfl
      obtain ⟨core, reply, pinned, hm, hdate, hmid, hph, hnph, hfd, hed,
        hbot, hr, hp, _, _⟩ := de_json_vobj_ok_destruct fields bot (some m) hne h
      obtain rfl : m = Message.mk core reply pinned := by
        injection hm with hm2
      refine WireOk.mk core reply pinned hph hnph
        ( _fromtimestamp_ne_some_zero _ _ hfd)
        ( _fromtimestamp_ne_some_zero _ _ hed) hbot ?_ ?_
      · intro r hrr
        rw [hrr] at hr
        exact ih (pyGetD fields "reply_to_message") r
          (by have h1 := sizeOf_pyGetD_lt fields "reply_to_message"; omega) hr
      · intro p hpp
        rw [hpp] at hp
        exact ih (pyGetD fields "pinned_message") p
          (by have h1 := sizeOf_pyGetD_lt fields "pinned_message"; omega) hp
  exact H (sizeOf W + 1) W m (by omega) h

theorem wireOk_roundtrip (bot : Option Bot) (m : Message) (hw : WireOk bot m) :
    Message.de_json (.vobj (Message.to_dict m)) bot = .ok (some m) := by
  induction hw with
  | mk core reply pinned hph hnph hfdne hedne hbot hr hp ihr ihp =>
    obtain ⟨ps, hps⟩ := hph
    obtain ⟨nps, hnps⟩ := hnph
    have hreply : Message.de_json
        (pyGetD (Message.to_dict (Message.mk core reply pinned)) "reply_to_message")
        bot = .ok reply := by
      rw [pyGetD_eq_lookup, lookup_reply]
      exact readback_msg_opt reply bot ihr
    have hpinned : Message.de_json
        (pyGetD (Message.to_dict (Message.mk core reply pinned)) "pinned_message")
        bot = .ok pinned := by
      rw [pyGetD_eq_lookup, lookup_pinned]
      exact readback_msg_opt pinned bot ihp
    have htr : pyTruthy
        (RVal.vobj (Message.to_dict (Message.mk core reply pinned))) = true := by
      rw [to_dict_eq]
      simp only [List.append_assoc, List.cons_append, List.nil_append]
      simp [pyTruthy]
    rw [Message.de_json.eq_def, htr]
    simp only [Bool.not_true, Bool.false_eq_true, if_false]
    simp only [rb_from, lookup_date, rb_chat, rb_entities, rb_forward_from,
      rb_forward_from_chat,
      rb_forward_date core reply pinned hfdne,
      hreply,
      rb_edit_date core reply pinned hedne,
      rb_audio, rb_document,
      rb_photo core reply pinned bot ps hps,
      rb_sticker, rb_video, rb_voice, rb_contact, rb_location, rb_venue,
      rb_new_chat_member, rb_left_chat_member,
      rb_new_chat_photo core reply pinned bot nps hnps,
      hpinned,
      lookup_bot_key, lookup_message_id,
      rb_text, rb_caption, rb_new_chat_title,
      rb_migrate_to_chat_id, rb_migrate_from_chat_id,
      rb_delete_chat_photo, rb_group_chat_created, rb_supergroup_chat_created,
      rb_channel_chat_created,
      pyFromTimestamp_vint, pyInt_vint, ok_bind, pure_eq_ok,
      Option.isSome_none, Bool.false_eq_true, if_false]
    rw [← hps, ← hnps, ← hbot]

/-- C1: the serialize/deserialize round trip.  Every message `de_json`
builds from wire data (any input on which it succeeds with a message) is
reproduced exactly by deserializing its own serialization: optional fields
that were absent or empty on the wire were constructed as the falsy
defaults, which `to_dict` omits again, and the whole-second timestamps
survive unchanged. -/
theorem claim_C1_roundtrip (W : RVal) (bot : Option Bot) (m : Message)
    (h : Message.de_json W bot = .ok (some m)) :
    Message.de_json (.vobj (Message.to_dict m)) bot = .ok (some m) :=
  wireOk_roundtrip bot m (de_json_ok_wireOk W bot m h)

theorem claim_C1_witness :
    Message.de_json (.vobj w0) none = .ok (some wireMsg0) ∧
    Message.de_json (.vobj (Message.to_dict wireMsg0)) none
      = .ok (some wireMsg0) := by
  have h : Message.de_json (.vobj w0) none = .ok (some wireMsg0) := by
    simp [Message.de_json, w0, wireMsg0, baseCore, pyTruthy, pyGetD,
      pyGetDefault, pyLookup, List.lookup, User.de_json, Chat.de_json,
      MessageEntity.de_list, Audio.de_json, Document.de_json,
      PhotoSize.de_list, Sticker.de_json, Video.de_json, Voice.de_json,
      Contact.de_json, Location.de_json, Venue.de_json, pyFromTimestamp,
      pyInt, asStr, Message._fromtimestamp, Bind.bind, Except.bind,
      Pure.pure, Except.pure, Except.map]
  exact ⟨h, claim_C1_roundtrip (.vobj w0) none wireMsg0 h⟩

end Telegram
